import Mathlib

/-!
# Canvas background effects: `squares-background.js` and `letter-glitch.js`

A shallow embedding of the two animation classes of `src/backend/assets/`.

Conventions of the embedding

* A JavaScript number is a rational (`ℚ`), the exact value of the double.
  Outside `drawGrid()` the arithmetic is exact: on the integer and dyadic
  values used at the concrete inputs there the IEEE double operations are
  exact, so the model and the program agree.
* `drawGrid()` accumulates its loop variables and derives a cell index from
  them, so there every `+`, `-`, `*`, `/` is followed by `Dbl.round`, the
  rounding of IEEE binary64 (nearest, ties to even).
* `undefined` / `null` / an absent option is `none`.
* `Math.random()` is a stream `rand : ℕ → ℚ` together with a cursor; the
  browser promises `0 ≤ rand k < 1`, which theorems take as a hypothesis where
  they need it.
* `requestAnimationFrame` hands out non-zero handles (`ℕ+`), hence a stored
  handle is always truthy; the frames scheduled and not cancelled are kept in
  `Frames.pending`.
* What is painted on the canvas is not part of an effect's state: the drawing
  routines read the fields of `this` and never write them.
-/

namespace CodetantraCheat

/-! ## JavaScript primitives -/

namespace JS

/-- Rounding toward zero, the integer quotient behind JavaScript's `%`. -/
def trunc (q : ℚ) : ℤ := if 0 ≤ q then ⌊q⌋ else ⌈q⌉

/-- JavaScript `a % n` on numbers: the remainder has the sign of the dividend.
(For `n = 0` JavaScript yields `NaN`; no caller below passes `0`, because both
constructors replace a zero size by the default.) -/
def rem (a n : ℚ) : ℚ := a - n * (trunc (a / n) : ℚ)

/-- `Math.round`: the nearest integer, ties toward `+∞`. -/
def round (q : ℚ) : ℤ := ⌊q + 1 / 2⌋

/-- `v || d` for an optional number: `undefined` and `0` are falsy. -/
def orNum (v : Option ℚ) (d : ℚ) : ℚ :=
  match v with
  | some x => if x = 0 then d else x
  | none => d

/-- `v || d` for an optional string: `undefined` and the empty string are falsy. -/
def orStr (v : Option String) (d : String) : String :=
  match v with
  | some x => if x = "" then d else x
  | none => d

/-- `v || d` for an optional boolean. -/
def orBool (v : Option Bool) (d : Bool) : Bool :=
  match v with
  | some true => true
  | _ => d

/-- `xs[i]` for a number `i` that is an integer: `undefined` outside the array. -/
def index {α : Type} (xs : List α) (i : ℤ) : Option α :=
  if i < 0 then none else xs[i.toNat]?

end JS

/-! ## IEEE binary64 arithmetic -/

namespace Dbl

/-- Rounding to the nearest integer, ties to the even one. -/
def roundHalfEven (x : ℚ) : ℤ :=
  let f := ⌊x⌋
  if x - f < 1 / 2 then f
  else if 1 / 2 < x - f then f + 1
  else if f % 2 = 0 then f else f + 1

/-- The double nearest to the real number `q`, ties to the even significand:
with `2 ^ e ≤ |q| < 2 ^ (e + 1)` the result is a multiple of `2 ^ (e - 52)`
(53 significant bits), and of `2 ^ (-1074)` in the subnormal range.  Overflow
to `Infinity`, `NaN` and the sign of zero are not modelled. -/
def round (q : ℚ) : ℚ :=
  if q = 0 then 0
  else
    let e := max (Int.log 2 |q|) (-1022)
    (roundHalfEven (q / (2 : ℚ) ^ (e - 52)) : ℚ) * (2 : ℚ) ^ (e - 52)

/-- JavaScript `a + b` on doubles. -/
def add (a b : ℚ) : ℚ := round (a + b)

/-- JavaScript `a - b` on doubles. -/
def sub (a b : ℚ) : ℚ := round (a - b)

/-- JavaScript `a * b` on doubles. -/
def mul (a b : ℚ) : ℚ := round (a * b)

/-- JavaScript `a / b` on doubles, for `b` other than zero. -/
def div (a b : ℚ) : ℚ := round (a / b)

end Dbl

/-- The frame callbacks of one page: the handle the next
`requestAnimationFrame` returns, and the handles scheduled and not cancelled. -/
structure Frames where
  next : ℕ+
  pending : List ℕ+
deriving DecidableEq

/-- `requestAnimationFrame(cb)`: schedules a callback and returns its handle. -/
def requestAnimationFrame (f : Frames) : ℕ+ × Frames :=
  (f.next, { next := f.next + 1, pending := f.next :: f.pending })

/-- `cancelAnimationFrame(id)`. -/
def cancelAnimationFrame (id : ℕ+) (f : Frames) : Frames :=
  { f with pending := f.pending.filter (fun h => h ≠ id) }

/-- The children an effect appends to its container. -/
inductive Node
  | canvas
  | outerVignette
  | centerVignette
deriving DecidableEq, Repr

/-! ## `squares-background.js` -/

namespace SquaresBackground

/-- The `options` argument of the constructor (every key optional). -/
structure Options where
  direction : Option String := none
  speed : Option ℚ := none
  borderColor : Option String := none
  squareSize : Option ℚ := none
  hoverFillColor : Option String := none
  className : Option String := none

/-- The canvas element owned by the effect. -/
structure Canvas where
  width : ℚ
  height : ℚ
  attached : Bool
deriving DecidableEq

/-- A pair of numbers `{ x, y }`. -/
structure Point (α : Type) where
  x : α
  y : α
deriving DecidableEq

/-- The fields of a `SquaresBackground` instance. -/
structure State where
  direction : String
  speed : ℚ
  borderColor : String
  squareSize : ℚ
  hoverFillColor : String
  className : String
  canvas : Option Canvas
  context : Bool
  animationId : Option ℕ+
  numSquaresX : ℤ
  numSquaresY : ℤ
  gridOffset : Point ℚ
  hoveredSquare : Option (Point ℤ)

/-- What the effect sees of the page. -/
structure Env where
  frames : Frames
  offsetWidth : ℚ
  offsetHeight : ℚ
  rectLeft : ℚ
  rectTop : ℚ
  children : List Node
  listening : Bool

/-- Source: `constructor(options = {})`. -/
def new (options : Options) : State :=
  { direction := JS.orStr options.direction "right"
    speed := JS.orNum options.speed 1
    borderColor := JS.orStr options.borderColor "#999"
    squareSize := JS.orNum options.squareSize 40
    hoverFillColor := JS.orStr options.hoverFillColor "#222"
    className := JS.orStr options.className ""
    canvas := none
    context := false
    animationId := none
    numSquaresX := 0
    numSquaresY := 0
    gridOffset := { x := 0, y := 0 }
    hoveredSquare := none }

/-- Source: `resizeCanvas()`. -/
def resizeCanvas (s : State) (e : Env) : State :=
  match s.canvas with
  | none => s
  | some c =>
    let c1 : Canvas := { c with width := e.offsetWidth, height := e.offsetHeight }
    { s with
      canvas := some c1
      numSquaresX := ⌈c1.width / s.squareSize⌉ + 1
      numSquaresY := ⌈c1.height / s.squareSize⌉ + 1 }

/-- The `switch (this.direction)` of `updateAnimation()`: the new `gridOffset`. -/
def advanceOffset (s : State) : Point ℚ :=
  let effectiveSpeed := max s.speed 0.1
  let o := s.gridOffset
  if s.direction = "right" then
    { o with x := JS.rem (o.x - effectiveSpeed + s.squareSize) s.squareSize }
  else if s.direction = "left" then
    { o with x := JS.rem (o.x + effectiveSpeed + s.squareSize) s.squareSize }
  else if s.direction = "up" then
    { o with y := JS.rem (o.y + effectiveSpeed + s.squareSize) s.squareSize }
  else if s.direction = "down" then
    { o with y := JS.rem (o.y - effectiveSpeed + s.squareSize) s.squareSize }
  else if s.direction = "diagonal" then
    { x := JS.rem (o.x - effectiveSpeed + s.squareSize) s.squareSize
      y := JS.rem (o.y - effectiveSpeed + s.squareSize) s.squareSize }
  else o

/-- Source: `updateAnimation()`, one tick: advance the offset, `drawGrid()`
(canvas output only), schedule the next frame. -/
def updateAnimation (s : State) (e : Env) : State × Env :=
  let s1 := { s with gridOffset := advanceOffset s }
  let (id, fr) := requestAnimationFrame e.frames
  ({ s1 with animationId := some id }, { e with frames := fr })

/-- Source: `handleMouseMove(event)`, with `event.clientX`, `event.clientY`. -/
def handleMouseMove (s : State) (e : Env) (clientX clientY : ℚ) : State :=
  match s.canvas with
  | none => s
  | some _ =>
    let mouseX := clientX - e.rectLeft
    let mouseY := clientY - e.rectTop
    let startX : ℚ := (⌊s.gridOffset.x / s.squareSize⌋ : ℚ) * s.squareSize
    let startY : ℚ := (⌊s.gridOffset.y / s.squareSize⌋ : ℚ) * s.squareSize
    let hoveredSquareX := ⌊(mouseX + s.gridOffset.x - startX) / s.squareSize⌋
    let hoveredSquareY := ⌊(mouseY + s.gridOffset.y - startY) / s.squareSize⌋
    match s.hoveredSquare with
    | none => { s with hoveredSquare := some { x := hoveredSquareX, y := hoveredSquareY } }
    | some h =>
      if h.x ≠ hoveredSquareX ∨ h.y ≠ hoveredSquareY then
        { s with hoveredSquare := some { x := hoveredSquareX, y := hoveredSquareY } }
      else s

/-- Source: `handleMouseLeave()`. -/
def handleMouseLeave (s : State) : State :=
  { s with hoveredSquare := none }

/-- Source: `setupEventListeners()`: the pointer and resize listeners are
registered (and never removed). -/
def setupEventListeners (s : State) (e : Env) : Env :=
  match s.canvas with
  | none => e
  | some _ => { e with listening := true }

/-- Source: `animate()`. -/
def animate (s : State) (e : Env) : State × Env :=
  updateAnimation s e

/-- Source: `init(container)`. -/
def init (s : State) (e : Env) : State × Env :=
  let s1 := { s with canvas := some { width := 300, height := 150, attached := true }, context := true }
  let e1 := { e with children := e.children ++ [Node.canvas] }
  let s2 := resizeCanvas s1 e1
  let e2 := setupEventListeners s2 e1
  animate s2 e2

/-- Source: `stop()`. -/
def stop (s : State) (e : Env) : State × Env :=
  match s.animationId with
  | some id => ({ s with animationId := none }, { e with frames := cancelAnimationFrame id e.frames })
  | none => (s, e)

/-- Source: `destroy()`. -/
def destroy (s : State) (e : Env) : State × Env :=
  let (s1, e1) := stop s e
  match s1.canvas with
  | some c =>
    if c.attached then
      ({ s1 with canvas := some { c with attached := false } },
       { e1 with children := e1.children.erase Node.canvas })
    else (s1, e1)
  | none => (s1, e1)

/-- A fill style of the 2D context: a CSS colour, or the radial gradient that
`drawGrid()` lays over the grid (its geometry is not modelled). -/
inductive FillStyle
  | color (css : String)
  | radialGradient
deriving DecidableEq

/-- What `drawGrid()` sends to the 2D context. -/
inductive CanvasOp
  | clearRect (x y w h : ℚ)
  | fillRect (style : FillStyle) (x y w h : ℚ)
  | strokeRect (style : String) (x y w h : ℚ)
deriving DecidableEq

/-- The body of the inner loop of `drawGrid()` at the loop position `(x, y)`:
the hover fill when the index of the position is `hoveredSquare`, then the
border.  (`%` is exact on doubles; `Math.floor` of a double is exact.) -/
def drawSquare (s : State) (startX startY x y : ℚ) : List CanvasOp :=
  let squareX := Dbl.sub x (JS.rem s.gridOffset.x s.squareSize)
  let squareY := Dbl.sub y (JS.rem s.gridOffset.y s.squareSize)
  let fill : List CanvasOp :=
    match s.hoveredSquare with
    | some h =>
      if ⌊Dbl.div (Dbl.sub x startX) s.squareSize⌋ = h.x
          ∧ ⌊Dbl.div (Dbl.sub y startY) s.squareSize⌋ = h.y then
        [CanvasOp.fillRect (FillStyle.color s.hoverFillColor) squareX squareY
          s.squareSize s.squareSize]
      else []
    | none => []
  fill ++ [CanvasOp.strokeRect s.borderColor squareX squareY s.squareSize s.squareSize]

/-- The inner loop of `drawGrid()`,
`for (let y = startY; y < this.canvas.height + this.squareSize; y += this.squareSize)`,
from `y` on with at most `fuel` turns: `none` when the fuel runs out before the
loop condition fails. -/
def drawColumn (s : State) (height startX startY x : ℚ) : ℕ → ℚ → Option (List CanvasOp)
  | 0, y => if y < Dbl.add height s.squareSize then none else some []
  | fuel + 1, y =>
    if y < Dbl.add height s.squareSize then
      match drawColumn s height startX startY x fuel (Dbl.add y s.squareSize) with
      | some ops => some (drawSquare s startX startY x y ++ ops)
      | none => none
    else some []

/-- The outer loop of `drawGrid()`,
`for (let x = startX; x < this.canvas.width + this.squareSize; x += this.squareSize)`,
from `x` on with at most `turns` turns, each inner loop having `fuel` turns. -/
def drawColumns (s : State) (width height startX startY : ℚ) (fuel : ℕ) :
    ℕ → ℚ → Option (List CanvasOp)
  | 0, x => if x < Dbl.add width s.squareSize then none else some []
  | turns + 1, x =>
    if x < Dbl.add width s.squareSize then
      match drawColumn s height startX startY x fuel startY,
          drawColumns s width height startX startY fuel turns (Dbl.add x s.squareSize) with
      | some column, some ops => some (column ++ ops)
      | _, _ => none
    else some []

/-- Source: `drawGrid()`: what it sends to the 2D context, with at most `fuel`
turns for each loop (`none` when a loop needs more). -/
def drawGrid (fuel : ℕ) (s : State) : Option (List CanvasOp) :=
  if !s.context then some []
  else
    match s.canvas with
    | none => some []
    | some canvas =>
      let startX : ℚ := Dbl.mul (⌊Dbl.div s.gridOffset.x s.squareSize⌋ : ℚ) s.squareSize
      let startY : ℚ := Dbl.mul (⌊Dbl.div s.gridOffset.y s.squareSize⌋ : ℚ) s.squareSize
      match drawColumns s canvas.width canvas.height startX startY fuel fuel startX with
      | some ops =>
        some (CanvasOp.clearRect 0 0 canvas.width canvas.height :: ops
          ++ [CanvasOp.fillRect FillStyle.radialGradient 0 0 canvas.width canvas.height])
      | none => none

/-- The state after `n` ticks of the frame loop. -/
def ticks : ℕ → State → Env → State × Env
  | 0, s, e => (s, e)
  | n + 1, s, e => let r := ticks n s e; updateAnimation r.1 r.2

/-- A page with nothing scheduled yet. -/
def blankEnv : Env :=
  { frames := { next := 1, pending := [] }
    offsetWidth := 800
    offsetHeight := 400
    rectLeft := 0
    rectTop := 0
    children := []
    listening := false }

/-- The options the page passes: `new SquaresBackground({ direction: 'diagonal',
speed: 0.5, borderColor: '#333', squareSize: 50, hoverFillColor: '#444' })`. -/
def pageOptions : Options :=
  { direction := some "diagonal"
    speed := some (1 / 2)
    borderColor := some "#333"
    squareSize := some 50
    hoverFillColor := some "#444" }

/-- What can still reach an effect once the page stops driving its frame
loop: the body of the debounced resize timer (`this.resizeCanvas()`), the two
pointer listeners, and calls of `stop()` and `destroy()`. -/
inductive Event
  | resizeCallback
  | mouseMove (clientX clientY : ℚ)
  | mouseLeave
  | stop
  | destroy

/-- The handler the effect runs for an event. -/
def handle (s : State) (e : Env) : Event → State × Env
  | Event.resizeCallback => (resizeCanvas s e, e)
  | Event.mouseMove clientX clientY => (handleMouseMove s e clientX clientY, e)
  | Event.mouseLeave => (handleMouseLeave s, e)
  | Event.stop => stop s e
  | Event.destroy => destroy s e

/-- The handlers of a sequence of events, in order. -/
def handleAll (s : State) (e : Env) : List Event → State × Env
  | [] => (s, e)
  | ev :: rest => let r := handle s e ev; handleAll r.1 r.2 rest

/-- A page whose container is 200 by 20 pixels, nothing scheduled yet. -/
def stripEnv : Env :=
  { blankEnv with offsetWidth := 200, offsetHeight := 20 }

/-- The effect `new SquaresBackground({ direction: 'none', squareSize: 20.1 })`
right after `init` on the page `stripEnv`: canvas of 200 by 20, offset
`{0, 0}`.  The number the constructor receives is the double `20.1`. -/
def fractionalSquares : State :=
  (init (new { direction := some "none", squareSize := some (Dbl.round 20.1) }) stripEnv).1

end SquaresBackground

/-! ## `letter-glitch.js` -/

namespace LetterGlitch

/-- The `options` argument of the constructor (every key optional). -/
structure Options where
  glitchColors : Option (List String) := none
  glitchSpeed : Option ℚ := none
  centerVignette : Option Bool := none
  outerVignette : Option Bool := none
  smooth : Option Bool := none
  characters : Option String := none

/-- An `{ r, g, b }` object as `hexToRgb` builds it. -/
structure Rgb where
  r : ℤ
  g : ℤ
  b : ℤ
deriving DecidableEq, Repr

/-- One cell of the character grid. -/
structure Letter where
  char : Option Char
  color : Option String
  targetColor : Option String
  colorProgress : ℚ
deriving DecidableEq

/-- The `{ columns, rows }` object. -/
structure Grid where
  columns : ℤ
  rows : ℤ
deriving DecidableEq, Repr

/-- The canvas element owned by the effect. -/
structure Canvas where
  width : ℚ
  height : ℚ
  attached : Bool
deriving DecidableEq

/-- A thrown JavaScript exception. -/
inductive JsError
  | typeError
deriving DecidableEq, Repr

/-- The fields of a `LetterGlitch` instance. -/
structure State where
  glitchColors : List String
  glitchSpeed : ℚ
  centerVignette : Bool
  outerVignette : Bool
  smooth : Bool
  characters : String
  canvas : Option Canvas
  context : Bool
  animationId : Option ℕ+
  letters : List Letter
  grid : Grid
  lastGlitchTime : ℚ
  fontSize : ℚ
  charWidth : ℚ
  charHeight : ℚ
  lettersAndSymbols : List Char

/-- What the effect sees of the page: the frame queue, `Date.now()`, the
window metrics, the `Math.random()` stream with its cursor, the children of
the container and whether the resize listener of `init` is registered. -/
structure Env where
  frames : Frames
  now : ℚ
  innerWidth : ℚ
  innerHeight : ℚ
  devicePixelRatio : ℚ
  rand : ℕ → ℚ
  cursor : ℕ
  children : List Node
  listening : Bool

/-- What `drawLetters` sends to the 2D context. -/
inductive CanvasOp
  | clearRect (x y w h : ℚ)
  | fillText (style : Option String) (text : Option Char) (x y : ℚ)

/-- The default of `options.characters`. -/
def defaultCharacters : String :=
  "ABCDEFGHIJKLMNOPQRSTUVWXYZ!@#$&*()-_+=/[]\x7b\x7d;:<>.,0123456789"

/-- Source: `constructor(options = {})`; `now` is what `Date.now()` returns. -/
def new (options : Options) (now : ℚ) : State :=
  let characters := JS.orStr options.characters defaultCharacters
  { glitchColors := options.glitchColors.getD ["#2b4539", "#61dca3", "#61b3dc"]
    glitchSpeed := JS.orNum options.glitchSpeed 50
    centerVignette := JS.orBool options.centerVignette false
    outerVignette := JS.orBool options.outerVignette true
    smooth := options.smooth != some false
    characters := characters
    canvas := none
    context := false
    animationId := none
    letters := []
    grid := { columns := 0, rows := 0 }
    lastGlitchTime := now
    fontSize := 16
    charWidth := 10
    charHeight := 20
    lettersAndSymbols := characters.toList }

/-- Drawing random numbers moves the cursor of the stream and nothing else. -/
def CursorOnly (e e1 : Env) : Prop :=
  e1 = { e with cursor := e1.cursor }

/-- One call of `Math.random()`. -/
def random (e : Env) : ℚ × Env :=
  (e.rand e.cursor, { e with cursor := e.cursor + 1 })

/-- Source: `getRandomChar()`. -/
def getRandomChar (s : State) (e : Env) : Option Char × Env :=
  let (r, e1) := random e
  (JS.index s.lettersAndSymbols ⌊r * s.lettersAndSymbols.length⌋, e1)

/-- Source: `getRandomColor()`. -/
def getRandomColor (s : State) (e : Env) : Option String × Env :=
  let (r, e1) := random e
  (JS.index s.glitchColors ⌊r * s.glitchColors.length⌋, e1)

/-- The character class `[a-f\d]` under the `i` flag. -/
def isHex (c : Char) : Bool :=
  (decide ('0' ≤ c) && decide (c ≤ '9')) || (decide ('a' ≤ c) && decide (c ≤ 'f'))
    || (decide ('A' ≤ c) && decide (c ≤ 'F'))

/-- The value of one hexadecimal digit. -/
def hexVal (c : Char) : ℤ :=
  if decide ('0' ≤ c) && decide (c ≤ '9') then (c.toNat : ℤ) - 48
  else if decide ('a' ≤ c) && decide (c ≤ 'f') then (c.toNat : ℤ) - 87
  else (c.toNat : ℤ) - 55

/-- The optional leading `#` of both patterns (`^#?`). -/
def stripHash : List Char → List Char
  | '#' :: rest => rest
  | cs => cs

/-- The `hex.replace(shorthandRegex, ...)` of `hexToRgb`: a whole string
`#rgb` or `rgb` becomes `rrggbb`, anything else is left as it is. -/
def expandShorthand (hex : List Char) : List Char :=
  match stripHash hex with
  | [r, g, b] => if isHex r && isHex g && isHex b then [r, r, g, g, b, b] else hex
  | _ => hex

/-- Source: `hexToRgb(hex)` on a string; `none` is the `null` it returns when
the six-digit pattern does not match. -/
def hexToRgb (hex : String) : Option Rgb :=
  match stripHash (expandShorthand hex.toList) with
  | [a, b, c, d, e, f] =>
    if isHex a && isHex b && isHex c && isHex d && isHex e && isHex f then
      some { r := 16 * hexVal a + hexVal b
             g := 16 * hexVal c + hexVal d
             b := 16 * hexVal e + hexVal f }
    else none
  | _ => none

/-- A call `hexToRgb(v)` where `v` may be `undefined`: `undefined.replace`
throws a `TypeError`. -/
def hexToRgbArg (v : Option String) : Except JsError (Option Rgb) :=
  match v with
  | none => Except.error JsError.typeError
  | some hex => Except.ok (hexToRgb hex)

/-- Source: `interpolateColor(start, end, factor)`. -/
def interpolateColor (start stop : Rgb) (factor : ℚ) : String :=
  let r := JS.round (start.r + (stop.r - start.r) * factor)
  let g := JS.round (start.g + (stop.g - start.g) * factor)
  let b := JS.round (start.b + (stop.b - start.b) * factor)
  "rgb(" ++ toString r ++ ", " ++ toString g ++ ", " ++ toString b ++ ")"

/-- Source: `calculateGrid(width, height)`. -/
def calculateGrid (s : State) (width height : ℚ) : Grid :=
  { columns := ⌈width / s.charWidth⌉, rows := ⌈height / s.charHeight⌉ }

/-- The callback of `Array.from({ length }, ...)` run `n` times in order. -/
def makeLetters (s : State) : ℕ → Env → List Letter × Env
  | 0, e => ([], e)
  | n + 1, e =>
    let (c, e1) := getRandomChar s e
    let (color, e2) := getRandomColor s e1
    let (target, e3) := getRandomColor s e2
    let (rest, e4) := makeLetters s n e3
    ({ char := c, color := color, targetColor := target, colorProgress := 1 } :: rest, e4)

/-- Source: `initializeLetters(columns, rows)`; a negative `length` makes
`Array.from` return the empty array. -/
def initializeLetters (s : State) (e : Env) (columns rows : ℤ) : State × Env :=
  let totalLetters := columns * rows
  let (letters, e1) := makeLetters s totalLetters.toNat e
  ({ s with grid := { columns := columns, rows := rows }, letters := letters }, e1)

/-- The `forEach` of `drawLetters`, from position `index` on. -/
def drawLoop (s : State) : ℕ → List Letter → List CanvasOp
  | _, [] => []
  | index, letter :: rest =>
    let x := JS.rem index s.grid.columns * s.charWidth
    let y := (⌊(index : ℚ) / s.grid.columns⌋ : ℚ) * s.charHeight
    CanvasOp.fillText letter.color letter.char x y :: drawLoop s (index + 1) rest

/-- Source: `drawLetters()`: what it sends to the 2D context (nothing when it
returns early).  `context` is only ever set together with `canvas`, in `init`,
so the `none` canvas branch is never reached. -/
def drawLetters (s : State) (e : Env) : List CanvasOp :=
  if !s.context || s.letters.length = 0 then []
  else
    match s.canvas with
    | none => []
    | some canvas =>
      let width := canvas.width / JS.orNum (some e.devicePixelRatio) 1
      let height := canvas.height / JS.orNum (some e.devicePixelRatio) 1
      CanvasOp.clearRect 0 0 width height :: drawLoop s 0 s.letters

/-- Source: `resizeCanvas()`. -/
def resizeCanvas (s : State) (e : Env) : State × Env :=
  match s.canvas with
  | none => (s, e)
  | some canvas =>
    let dpr := JS.orNum (some e.devicePixelRatio) 1
    let width := e.innerWidth
    let height := e.innerHeight
    let s1 := { s with canvas := some { canvas with width := width * dpr, height := height * dpr } }
    let grid := calculateGrid s1 width height
    initializeLetters s1 e grid.columns grid.rows

/-- The assignments of one turn of the loop of `updateLetters()` to the cell
`this.letters[index]`: `char`, `targetColor`, then the `if (!this.smooth)`
branch. -/
def reassigned (s : State) (letter : Letter) (c : Option Char) (target : Option String) :
    Letter :=
  let l1 := { letter with char := c, targetColor := target }
  if !s.smooth then { l1 with color := l1.targetColor, colorProgress := 1 }
  else { l1 with colorProgress := 0 }

/-- One turn of the `for` loop of `updateLetters()`: the new cells, the page,
and the index whose cell was reassigned (`none` after `continue`). -/
def updateStep (s : State) (letters : List Letter) (e : Env) : List Letter × Env × Option ℕ :=
  let (r, e1) := random e
  let index := ⌊r * letters.length⌋
  match JS.index letters index with
  | none => (letters, e1, none)
  | some letter =>
    let (c, e2) := getRandomChar s e1
    let (target, e3) := getRandomColor s e2
    (letters.set index.toNat (reassigned s letter c target), e3, some index.toNat)

/-- The `for (let i = 0; i < updateCount; i++)` loop, `n` turns to go; the
last component collects the indices reassigned, in order. -/
def updateLoop (s : State) : ℕ → List Letter → Env → List ℕ → List Letter × Env × List ℕ
  | 0, letters, e, hits => (letters, e, hits)
  | n + 1, letters, e, hits =>
    let (letters1, e1, hit) := updateStep s letters e
    updateLoop s n letters1 e1 (hits ++ hit.toList)

/-- The `updateCount` of `updateLetters()`. -/
def updateCount (totalLetters : ℕ) : ℤ :=
  max 1 ⌊(totalLetters : ℚ) * 0.05⌋

/-- Source: `updateLetters()`, together with the indices of the cells it
reassigned, one entry per assignment. -/
def updateLettersTraced (s : State) (e : Env) : State × Env × List ℕ :=
  if s.letters.length = 0 then (s, e, [])
  else
    let (letters, e1, hits) := updateLoop s (updateCount s.letters.length).toNat s.letters e []
    ({ s with letters := letters }, e1, hits)

/-- Source: `updateLetters()`. -/
def updateLetters (s : State) (e : Env) : State × Env :=
  let r := updateLettersTraced s e
  (r.1, r.2.1)

/-- The callback of the `forEach` of `handleSmoothTransitions()` on one cell:
the cell afterwards and whether it asked for a redraw. -/
def transitionLetter (letter : Letter) : Except JsError (Letter × Bool) :=
  if letter.colorProgress < 1 then
    let p := letter.colorProgress + 0.05
    let p := if p > 1 then 1 else p
    let l1 := { letter with colorProgress := p }
    match hexToRgbArg l1.color with
    | Except.error err => Except.error err
    | Except.ok startRgb =>
      match hexToRgbArg l1.targetColor with
      | Except.error err => Except.error err
      | Except.ok endRgb =>
        match startRgb, endRgb with
        | some a, some b =>
          Except.ok ({ l1 with color := some (interpolateColor a b l1.colorProgress) }, true)
        | _, _ => Except.ok (l1, false)
  else Except.ok (letter, false)

/-- The `forEach` of `handleSmoothTransitions()` over the cells in order. -/
def transitionLetters : List Letter → Except JsError (List Letter × Bool)
  | [] => Except.ok ([], false)
  | letter :: rest =>
    match transitionLetter letter with
    | Except.error err => Except.error err
    | Except.ok (l1, redraw) =>
      match transitionLetters rest with
      | Except.error err => Except.error err
      | Except.ok (rest1, redraw1) => Except.ok (l1 :: rest1, redraw || redraw1)

/-- Source: `handleSmoothTransitions()`: the state afterwards and the value of
`needsRedraw` (whether `drawLetters()` was called), or the exception thrown. -/
def handleSmoothTransitions (s : State) : Except JsError (State × Bool) :=
  match transitionLetters s.letters with
  | Except.error err => Except.error err
  | Except.ok (letters, needsRedraw) => Except.ok ({ s with letters := letters }, needsRedraw)

/-- The block `if (now - this.lastGlitchTime >= this.glitchSpeed) { ... }` of
`animate()`: `updateLetters()`, `drawLetters()` (canvas output only), and the
new `lastGlitchTime`. -/
def glitchTick (s : State) (e : Env) : State × Env :=
  let now := e.now
  if now - s.lastGlitchTime ≥ s.glitchSpeed then
    let r := updateLetters s e
    ({ r.1 with lastGlitchTime := now }, r.2)
  else (s, e)

/-- The block `if (this.smooth) { this.handleSmoothTransitions(); }` of
`animate()`. -/
def smoothTick (s : State) : Except JsError State :=
  if s.smooth then
    match handleSmoothTransitions s with
    | Except.error err => Except.error err
    | Except.ok r => Except.ok r.1
  else Except.ok s

/-- Source: `animate()`, one frame: the gated update, the smooth transitions,
then `this.animationId = requestAnimationFrame(...)`.  An exception thrown on
the way leaves the next frame unscheduled. -/
def animate (s : State) (e : Env) : Except JsError (State × Env) :=
  let r := glitchTick s e
  match smoothTick r.1 with
  | Except.error err => Except.error err
  | Except.ok s2 =>
    let f := requestAnimationFrame r.2.frames
    Except.ok ({ s2 with animationId := some f.1 }, { r.2 with frames := f.2 })

/-- Source: `stop()`. -/
def stop (s : State) (e : Env) : State × Env :=
  match s.animationId with
  | some id => ({ s with animationId := none }, { e with frames := cancelAnimationFrame id e.frames })
  | none => (s, e)

/-- Source: `destroy()`. -/
def destroy (s : State) (e : Env) : State × Env :=
  let (s1, e1) := stop s e
  match s1.canvas with
  | some c =>
    if c.attached then
      ({ s1 with canvas := some { c with attached := false } },
       { e1 with children := e1.children.erase Node.canvas })
    else (s1, e1)
  | none => (s1, e1)

/-- The body of the debounced timer that the resize listener of `init` sets:
`this.stop(); this.resizeCanvas(); this.animate();`. -/
def resizeCallback (s : State) (e : Env) : Except JsError (State × Env) :=
  let (s1, e1) := stop s e
  let (s2, e2) := resizeCanvas s1 e1
  animate s2 e2

/-- The first part of `init(container)`: the canvas is created with its 2D
context and appended to the container, then the vignette overlays. -/
def mount (s : State) (e : Env) : State × Env :=
  let s1 := { s with canvas := some { width := 300, height := 150, attached := true }, context := true }
  let e1 := { e with children := e.children ++ [Node.canvas] }
  let e2 := if s1.outerVignette then { e1 with children := e1.children ++ [Node.outerVignette] } else e1
  let e3 := if s1.centerVignette then { e2 with children := e2.children ++ [Node.centerVignette] } else e2
  (s1, e3)

/-- Source: `init(container)`: mount, `resizeCanvas()`, `animate()`, then the
resize listener is registered. -/
def init (s : State) (e : Env) : Except JsError (State × Env) :=
  let m := mount s e
  let r := resizeCanvas m.1 m.2
  match animate r.1 r.2 with
  | Except.error err => Except.error err
  | Except.ok (s3, e5) => Except.ok (s3, { e5 with listening := true })

/-- A page of 800 by 400 pixels at time 0, nothing scheduled, whose
`Math.random()` always returns 0. -/
def blankEnv : Env :=
  { frames := { next := 1, pending := [] }
    now := 0
    innerWidth := 800
    innerHeight := 400
    devicePixelRatio := 1
    rand := fun _ => 0
    cursor := 0
    children := []
    listening := false }

/-- A cell as `initializeLetters` makes them, in the first palette colour. -/
def restingLetter : Letter :=
  { char := some 'A', color := some "#2b4539", targetColor := some "#2b4539", colorProgress := 1 }

/-- An effect with a grid of 8 by 5 resting cells; `smooth` as given. -/
def fortyCells (smooth : Bool) : State :=
  { new { smooth := some smooth } 0 with
    letters := List.replicate 40 restingLetter
    grid := { columns := 8, rows := 5 } }

/-- An effect with a single resting cell (a grid of 1 by 1), `smooth` on. -/
def oneCell : State :=
  { new { } 0 with
    letters := [restingLetter]
    grid := { columns := 1, rows := 1 } }

/-- The page `blankEnv` whose third draw of `Math.random()` is `1/3` (it picks
the second palette colour); every other draw is 0. -/
def secondColorEnv : Env :=
  { blankEnv with rand := fun k => if k = 2 then 1 / 3 else 0 }

/-- The state after `n` animation frames in which only
`handleSmoothTransitions()` runs (the gate of `updateLetters` stays closed). -/
def smoothFrames : ℕ → State → Except JsError State
  | 0, s => Except.ok s
  | n + 1, s =>
    match smoothFrames n s with
    | Except.error err => Except.error err
    | Except.ok s1 =>
      match handleSmoothTransitions s1 with
      | Except.error err => Except.error err
      | Except.ok r => Except.ok r.1

/-- An effect with a single cell in transition whose displayed colour is the
`rgb(...)` string a transition frame wrote, which `hexToRgb` does not parse. -/
def stalledCell : State :=
  { new { } 0 with
    letters := [{ char := some 'A', color := some "rgb(46, 77, 62)",
                  targetColor := some "#61dca3", colorProgress := 1 / 20 }]
    grid := { columns := 1, rows := 1 } }

end LetterGlitch

/-! ## Theorems -/

namespace JS

theorem trunc_of_nonneg {q : ℚ} (h : 0 ≤ q) : trunc q = ⌊q⌋ := by
  simp [trunc, h]

/-- For a positive modulus and a non-negative dividend `%` lands in `[0, n)`. -/
theorem rem_bounds_of_nonneg {a n : ℚ} (hn : 0 < n) (ha : 0 ≤ a) :
    0 ≤ rem a n ∧ rem a n < n := by
  have hq : 0 ≤ a / n := div_nonneg ha hn.le
  have h1 : (⌊a / n⌋ : ℚ) ≤ a / n := Int.floor_le _
  have h2 : a / n < (⌊a / n⌋ : ℚ) + 1 := Int.lt_floor_add_one _
  have h3 : n * (a / n) = a := by field_simp
  have h4 : n * (⌊a / n⌋ : ℚ) ≤ a := by
    calc n * (⌊a / n⌋ : ℚ) ≤ n * (a / n) := by exact mul_le_mul_of_nonneg_left h1 hn.le
      _ = a := h3
  have h5 : a < n * ((⌊a / n⌋ : ℚ) + 1) := by
    calc a = n * (a / n) := h3.symm
      _ < n * ((⌊a / n⌋ : ℚ) + 1) := by exact mul_lt_mul_of_pos_left h2 hn
  unfold rem
  rw [trunc_of_nonneg hq]
  constructor <;> nlinarith

/-- The remainder differs from the dividend by an integer multiple of the modulus. -/
theorem rem_eq_sub_mul (a n : ℚ) : ∃ m : ℤ, rem a n = a - n * m :=
  ⟨trunc (a / n), rfl⟩

/-- A dividend already in `[0, n)` is its own remainder. -/
theorem rem_of_lt {a n : ℚ} (ha : 0 ≤ a) (han : a < n) : rem a n = a := by
  have hn : 0 < n := lt_of_le_of_lt ha han
  have hq : 0 ≤ a / n := div_nonneg ha hn.le
  have hf : ⌊a / n⌋ = 0 := by
    rw [Int.floor_eq_iff]
    refine ⟨by simpa using hq, ?_⟩
    have : a / n < 1 := (div_lt_one hn).2 han
    simpa using this
  unfold rem
  rw [trunc_of_nonneg hq, hf]
  simp

end JS

namespace SquaresBackground

theorem ticks_squareSize (n : ℕ) (s : State) (e : Env) :
    (ticks n s e).1.squareSize = s.squareSize ∧ (ticks n s e).1.speed = s.speed
      ∧ (ticks n s e).1.direction = s.direction := by
  induction n with
  | zero => simp [ticks]
  | succ k ih => simpa [ticks, updateAnimation, requestAnimationFrame] using ih

/-- One tick keeps an offset inside `[0, squareSize)` when the step toward the
negative side is at most one square. -/
theorem advanceOffset_bounds (s : State) (hsize : 0 < s.squareSize)
    (hspeed : s.direction = "right" ∨ s.direction = "down" ∨ s.direction = "diagonal" →
      max s.speed 0.1 ≤ s.squareSize)
    (hx : 0 ≤ s.gridOffset.x ∧ s.gridOffset.x < s.squareSize)
    (hy : 0 ≤ s.gridOffset.y ∧ s.gridOffset.y < s.squareSize) :
    (0 ≤ (advanceOffset s).x ∧ (advanceOffset s).x < s.squareSize)
      ∧ (0 ≤ (advanceOffset s).y ∧ (advanceOffset s).y < s.squareSize) := by
  have hpos : (0 : ℚ) < max s.speed 0.1 := lt_of_lt_of_le (by norm_num) (le_max_right _ _)
  unfold advanceOffset
  by_cases h1 : s.direction = "right"
  · have hs := hspeed (Or.inl h1)
    simp only [h1, if_true]
    exact ⟨JS.rem_bounds_of_nonneg hsize (by linarith [hx.1]), hy⟩
  by_cases h2 : s.direction = "left"
  · simp only [h1, h2, if_true, if_false]
    exact ⟨JS.rem_bounds_of_nonneg hsize (by linarith [hx.1]), hy⟩
  by_cases h3 : s.direction = "up"
  · simp only [h1, h2, h3, if_true, if_false]
    exact ⟨hx, JS.rem_bounds_of_nonneg hsize (by linarith [hy.1])⟩
  by_cases h4 : s.direction = "down"
  · have hs := hspeed (Or.inr (Or.inl h4))
    simp only [h1, h2, h3, h4, if_true, if_false]
    exact ⟨hx, JS.rem_bounds_of_nonneg hsize (by linarith [hy.1])⟩
  by_cases h5 : s.direction = "diagonal"
  · have hs := hspeed (Or.inr (Or.inr h5))
    simp only [h1, h2, h3, h4, h5, if_true, if_false]
    exact ⟨JS.rem_bounds_of_nonneg hsize (by linarith [hx.1]),
      JS.rem_bounds_of_nonneg hsize (by linarith [hy.1])⟩
  simp only [h1, h2, h3, h4, h5, if_false]
  exact ⟨hx, hy⟩

theorem ticks_bounds (n : ℕ) (s : State) (e : Env) (hsize : 0 < s.squareSize)
    (hspeed : s.direction = "right" ∨ s.direction = "down" ∨ s.direction = "diagonal" →
      max s.speed 0.1 ≤ s.squareSize)
    (hx : 0 ≤ s.gridOffset.x ∧ s.gridOffset.x < s.squareSize)
    (hy : 0 ≤ s.gridOffset.y ∧ s.gridOffset.y < s.squareSize) :
    (0 ≤ (ticks n s e).1.gridOffset.x ∧ (ticks n s e).1.gridOffset.x < s.squareSize)
      ∧ (0 ≤ (ticks n s e).1.gridOffset.y ∧ (ticks n s e).1.gridOffset.y < s.squareSize) := by
  induction n with
  | zero => exact ⟨hx, hy⟩
  | succ k ih =>
    obtain ⟨hsz, hsp, hdir⟩ := ticks_squareSize k s e
    have key := advanceOffset_bounds (ticks k s e).1 (by rw [hsz]; exact hsize)
      (by rw [hsz, hsp, hdir]; exact hspeed) (by rw [hsz]; exact ih.1) (by rw [hsz]; exact ih.2)
    rw [hsz] at key
    simpa [ticks, updateAnimation, requestAnimationFrame] using key

/-- C1, the claim as stated fails: with `speed: 100` and `squareSize: 40`
(direction `right` by default) the first tick leaves `gridOffset.x = -20`,
below `0`. -/
theorem offset_wrap_fails_for_fast_scroll :
    (ticks 1 (new { speed := some 100, squareSize := some 40 }) blankEnv).1.gridOffset.x = -20
      ∧ ¬ (0 ≤ (ticks 1 (new { speed := some 100, squareSize := some 40 }) blankEnv).1.gridOffset.x) := by
  have hc : ⌈(-(3 / 2) : ℚ)⌉ = -1 := by
    rw [Int.ceil_eq_iff]; norm_num
  have hx : (ticks 1 (new { speed := some 100, squareSize := some 40 }) blankEnv).1.gridOffset.x
      = -20 := by
    simp only [ticks, updateAnimation, requestAnimationFrame, advanceOffset, new, JS.orStr,
      JS.orNum, JS.rem, JS.trunc]
    norm_num [hc]
  rw [hx]
  norm_num

/-- C1 (amended): for every options object whose `squareSize` is positive and,
for the directions `right`, `down` and `diagonal`, whose effective speed
`max(speed, 0.1)` is at most `squareSize`, after any number of ticks from the
initial offset both coordinates of `gridOffset` are in `[0, squareSize)`. -/
theorem offset_wrap_law (o : Options) (e : Env) (n : ℕ)
    (hsize : 0 < (new o).squareSize)
    (hspeed : (new o).direction = "right" ∨ (new o).direction = "down"
        ∨ (new o).direction = "diagonal" →
      max (new o).speed 0.1 ≤ (new o).squareSize) :
    (0 ≤ (ticks n (new o) e).1.gridOffset.x
        ∧ (ticks n (new o) e).1.gridOffset.x < (ticks n (new o) e).1.squareSize)
      ∧ (0 ≤ (ticks n (new o) e).1.gridOffset.y
        ∧ (ticks n (new o) e).1.gridOffset.y < (ticks n (new o) e).1.squareSize) := by
  rw [(ticks_squareSize n (new o) e).1]
  exact ticks_bounds n (new o) e hsize hspeed ⟨le_refl _, hsize⟩ ⟨le_refl _, hsize⟩

/-- The amended wrap law at the options the page itself uses
(`diagonal`, speed `0.5`, squareSize `50`), after 7 ticks. -/
theorem offset_wrap_law_witness :
    (0 ≤ (ticks 7 (new pageOptions) blankEnv).1.gridOffset.x
        ∧ (ticks 7 (new pageOptions) blankEnv).1.gridOffset.x
          < (ticks 7 (new pageOptions) blankEnv).1.squareSize)
      ∧ (0 ≤ (ticks 7 (new pageOptions) blankEnv).1.gridOffset.y
        ∧ (ticks 7 (new pageOptions) blankEnv).1.gridOffset.y
          < (ticks 7 (new pageOptions) blankEnv).1.squareSize) :=
  offset_wrap_law pageOptions blankEnv 7 (by norm_num [new, pageOptions, JS.orNum])
    (by intro _; norm_num [new, pageOptions, JS.orNum])

theorem advanceOffset_right (s : State) (h : s.direction = "right") :
    advanceOffset s =
      { x := JS.rem (s.gridOffset.x - max s.speed 0.1 + s.squareSize) s.squareSize
        y := s.gridOffset.y } := by
  simp [advanceOffset, h]

/-- Scrolling right, after `j` ticks the horizontal offset is the start minus
`j` steps, up to a whole number of squares; the vertical offset is untouched. -/
theorem ticks_right_congruent (s : State) (e : Env) (h : s.direction = "right") (j : ℕ) :
    (∃ m : ℤ, (ticks j s e).1.gridOffset.x
        = s.gridOffset.x - j * max s.speed 0.1 + s.squareSize * m)
      ∧ (ticks j s e).1.gridOffset.y = s.gridOffset.y := by
  induction j with
  | zero => exact ⟨⟨0, by simp [ticks]⟩, rfl⟩
  | succ k ih =>
    obtain ⟨⟨m, hm⟩, hy⟩ := ih
    obtain ⟨hsz, hsp, hdir⟩ := ticks_squareSize k s e
    have hstep : (ticks (k + 1) s e).1.gridOffset = advanceOffset (ticks k s e).1 := by
      simp [ticks, updateAnimation, requestAnimationFrame]
    rw [hstep, advanceOffset_right _ (hdir.trans h), hsz, hsp]
    obtain ⟨q, hq⟩ := JS.rem_eq_sub_mul
      ((ticks k s e).1.gridOffset.x - max s.speed 0.1 + s.squareSize) s.squareSize
    refine ⟨⟨m + 1 - q, ?_⟩, hy⟩
    rw [hq, hm]
    push_cast
    ring

/-- Scrolling right by at most one square per tick keeps the horizontal offset
in `[0, squareSize)`, whatever the vertical offset is. -/
theorem ticks_right_bounds (s : State) (e : Env) (h : s.direction = "right")
    (hsize : 0 < s.squareSize) (hspeed : max s.speed 0.1 ≤ s.squareSize)
    (hx : 0 ≤ s.gridOffset.x ∧ s.gridOffset.x < s.squareSize) (j : ℕ) :
    0 ≤ (ticks j s e).1.gridOffset.x ∧ (ticks j s e).1.gridOffset.x < s.squareSize := by
  induction j with
  | zero => exact hx
  | succ k ih =>
    obtain ⟨hsz, hsp, hdir⟩ := ticks_squareSize k s e
    have hstep : (ticks (k + 1) s e).1.gridOffset = advanceOffset (ticks k s e).1 := by
      simp [ticks, updateAnimation, requestAnimationFrame]
    rw [hstep, advanceOffset_right _ (hdir.trans h), hsz, hsp]
    exact JS.rem_bounds_of_nonneg hsize (by linarith [ih.1])

/-- C8: scrolling `right` with a positive integer `squareSize` and a positive
integer `speed` dividing it, from any horizontal offset in `[0, squareSize)`,
after `squareSize / speed` ticks `gridOffset.x` is back at its starting value
and `gridOffset.y` has not changed. -/
theorem full_period_right (s : State) (e : Env) (size speed : ℕ)
    (hsize : 0 < size) (hspeed : 0 < speed) (hdvd : speed ∣ size)
    (hdir : s.direction = "right") (hs : s.squareSize = size) (hv : s.speed = speed)
    (hx0 : 0 ≤ s.gridOffset.x) (hx1 : s.gridOffset.x < size) :
    (ticks (size / speed) s e).1.gridOffset.x = s.gridOffset.x
      ∧ (ticks (size / speed) s e).1.gridOffset.y = s.gridOffset.y := by
  have hsizeQ : (0 : ℚ) < size := by exact_mod_cast hsize
  have hspeed1 : (1 : ℚ) ≤ speed := by exact_mod_cast hspeed
  have hle : (speed : ℚ) ≤ size := by exact_mod_cast Nat.le_of_dvd hsize hdvd
  have heff : max s.speed 0.1 = speed := by
    rw [hv]; exact max_eq_left (by linarith)
  obtain ⟨⟨m, hm⟩, hy⟩ := ticks_right_congruent s e hdir (size / speed)
  refine ⟨?_, hy⟩
  have hmul : ((size / speed : ℕ) : ℚ) * speed = size := by
    exact_mod_cast Nat.div_mul_cancel hdvd
  rw [heff, hmul, hs] at hm
  have hb := ticks_right_bounds s e hdir (by rw [hs]; exact hsizeQ)
    (by rw [heff, hs]; exact hle) ⟨hx0, by rw [hs]; exact hx1⟩ (size / speed)
  rw [hs, hm] at hb
  have h1 : (-1 : ℚ) < (m : ℚ) - 1 := by
    by_contra hcon
    push_neg at hcon
    have : (size : ℚ) * ((m : ℚ) - 1) ≤ (size : ℚ) * (-1) :=
      mul_le_mul_of_nonneg_left hcon hsizeQ.le
    nlinarith [hb.1]
  have h2 : (m : ℚ) - 1 < 1 := by
    by_contra hcon
    push_neg at hcon
    have : (size : ℚ) * 1 ≤ (size : ℚ) * ((m : ℚ) - 1) :=
      mul_le_mul_of_nonneg_left hcon hsizeQ.le
    nlinarith [hb.2]
  have hm1 : m = 1 := by
    have h1' : (0 : ℤ) < m := by
      have : (0 : ℚ) < (m : ℚ) := by linarith
      exact_mod_cast this
    have h2' : m < 2 := by
      have : (m : ℚ) < 2 := by linarith
      exact_mod_cast this
    omega
  rw [hm, hm1]
  push_cast
  ring

/-- C8 at Scenario B: `speed = 1`, `squareSize = 50`, direction `right`, from
the initial offset: after 50 ticks the offset is back where it started. -/
theorem full_period_right_witness :
    (ticks (50 / 1) (new { speed := some 1, squareSize := some 50 }) blankEnv).1.gridOffset.x
        = (new { speed := some 1, squareSize := some 50 }).gridOffset.x
      ∧ (ticks (50 / 1) (new { speed := some 1, squareSize := some 50 }) blankEnv).1.gridOffset.y
        = (new { speed := some 1, squareSize := some 50 }).gridOffset.y :=
  full_period_right (new { speed := some 1, squareSize := some 50 }) blankEnv 50 1
    (by decide) (by decide) (by decide) (by simp [new, JS.orStr]) (by norm_num [new, JS.orNum])
    (by norm_num [new, JS.orNum]) (by simp [new]) (by norm_num [new])

/-- C9: with a canvas, a positive `squareSize` and `gridOffset = {0, 0}`, a
pointer at the canvas-local position `(mx, my)` with `mx, my ≥ 0` sets
`hoveredSquare` to `(⌊mx / squareSize⌋, ⌊my / squareSize⌋)`. -/
theorem hover_hit_test (s : State) (e : Env) (clientX clientY : ℚ) (c : Canvas)
    (hc : s.canvas = some c) (_hsize : 0 < s.squareSize)
    (hoff : s.gridOffset = { x := 0, y := 0 })
    (_hmx : 0 ≤ clientX - e.rectLeft) (_hmy : 0 ≤ clientY - e.rectTop) :
    (handleMouseMove s e clientX clientY).hoveredSquare
      = some { x := ⌊(clientX - e.rectLeft) / s.squareSize⌋
               y := ⌊(clientY - e.rectTop) / s.squareSize⌋ } := by
  unfold handleMouseMove
  simp only [hc, hoff]
  cases hh : s.hoveredSquare with
  | none => simp
  | some h =>
    by_cases hne : h.x ≠ ⌊(clientX - e.rectLeft) / s.squareSize⌋
        ∨ h.y ≠ ⌊(clientY - e.rectTop) / s.squareSize⌋
    · have hne2 : h.x ≠ ⌊(clientX - e.rectLeft + 0 - (⌊(0 : ℚ) / s.squareSize⌋ : ℚ) * s.squareSize)
            / s.squareSize⌋
          ∨ h.y ≠ ⌊(clientY - e.rectTop + 0 - (⌊(0 : ℚ) / s.squareSize⌋ : ℚ) * s.squareSize)
            / s.squareSize⌋ := by
        simpa using hne
      simp only [if_pos hne2]
      simp
    · have hne2 : ¬ (h.x ≠ ⌊(clientX - e.rectLeft + 0 - (⌊(0 : ℚ) / s.squareSize⌋ : ℚ) * s.squareSize)
            / s.squareSize⌋
          ∨ h.y ≠ ⌊(clientY - e.rectTop + 0 - (⌊(0 : ℚ) / s.squareSize⌋ : ℚ) * s.squareSize)
            / s.squareSize⌋) := by
        simpa using hne
      simp only [if_neg hne2]
      push_neg at hne
      rw [hh]
      cases h
      simp_all

/-- C9 at Scenario D: pointer `(105, 65)`, `squareSize = 50`, offset `{0, 0}`
gives the hovered cell `(2, 1)`. -/
theorem hover_hit_test_witness :
    (handleMouseMove (init (new { direction := some "none", squareSize := some 50 }) blankEnv).1
        blankEnv 105 65).hoveredSquare
      = some { x := 2, y := 1 } := by
  have hx : ⌊((105 : ℚ) - 0) / 50⌋ = 2 := by rw [Int.floor_eq_iff]; norm_num
  have hy : ⌊((65 : ℚ) - 0) / 50⌋ = 1 := by rw [Int.floor_eq_iff]; norm_num
  have h := hover_hit_test (init (new { direction := some "none", squareSize := some 50 }) blankEnv).1
    blankEnv 105 65 { width := 800, height := 400, attached := true }
    (by simp [init, animate, updateAnimation, resizeCanvas, new, blankEnv])
    (by norm_num [init, animate, updateAnimation, resizeCanvas, new, JS.orNum])
    (by simp [init, animate, updateAnimation, resizeCanvas, new, advanceOffset, JS.orStr])
    (by norm_num [blankEnv]) (by norm_num [blankEnv])
  have hsz : (init (new { direction := some "none", squareSize := some 50 }) blankEnv).1.squareSize
      = 50 := by
    norm_num [init, animate, updateAnimation, resizeCanvas, new, JS.orNum]
  rw [hsz] at h
  rw [h]
  simp only [blankEnv, hx, hy]

theorem squares_stop_animationId (s : State) (e : Env) : (stop s e).1.animationId = none := by
  unfold stop
  cases h : s.animationId <;> simp [h]

theorem squares_stop_stop (s : State) (e : Env) :
    stop (stop s e).1 (stop s e).2 = stop s e := by
  have h := squares_stop_animationId s e
  generalize stop s e = r at h
  obtain ⟨s1, e1⟩ := r
  simp only at h
  simp [stop, h]

end SquaresBackground

namespace LetterGlitch

theorem glitch_stop_animationId (s : State) (e : Env) : (stop s e).1.animationId = none := by
  unfold stop
  cases h : s.animationId <;> simp [h]

theorem glitch_stop_stop (s : State) (e : Env) :
    stop (stop s e).1 (stop s e).2 = stop s e := by
  have h := glitch_stop_animationId s e
  generalize stop s e = r at h
  obtain ⟨s1, e1⟩ := r
  simp only at h
  simp [stop, h]

end LetterGlitch

/-- C7: for both effects and every state, a second `stop()` changes nothing
(neither the effect nor the set of scheduled frames, so it cancels nothing),
and after `stop()` the `animationId` is `null`.  `stop` is a total function:
it raises no error. -/
theorem stop_idempotent :
    (∀ (s : LetterGlitch.State) (e : LetterGlitch.Env),
        LetterGlitch.stop (LetterGlitch.stop s e).1 (LetterGlitch.stop s e).2
            = LetterGlitch.stop s e
          ∧ (LetterGlitch.stop (LetterGlitch.stop s e).1 (LetterGlitch.stop s e).2).2.frames
            = (LetterGlitch.stop s e).2.frames
          ∧ (LetterGlitch.stop s e).1.animationId = none)
      ∧ (∀ (s : SquaresBackground.State) (e : SquaresBackground.Env),
        SquaresBackground.stop (SquaresBackground.stop s e).1 (SquaresBackground.stop s e).2
            = SquaresBackground.stop s e
          ∧ (SquaresBackground.stop (SquaresBackground.stop s e).1
              (SquaresBackground.stop s e).2).2.frames
            = (SquaresBackground.stop s e).2.frames
          ∧ (SquaresBackground.stop s e).1.animationId = none) := by
  refine ⟨fun s e => ⟨LetterGlitch.glitch_stop_stop s e, ?_, LetterGlitch.glitch_stop_animationId s e⟩,
    fun s e => ⟨SquaresBackground.squares_stop_stop s e, ?_, SquaresBackground.squares_stop_animationId s e⟩⟩
  · rw [LetterGlitch.glitch_stop_stop]
  · rw [SquaresBackground.squares_stop_stop]

namespace LetterGlitch

theorem CursorOnly.refl (e : Env) : CursorOnly e e := rfl

theorem CursorOnly.trans {a b c : Env} (h1 : CursorOnly a b) (h2 : CursorOnly b c) :
    CursorOnly a c := by
  unfold CursorOnly at *
  rw [h2, h1]

theorem cursorOnly_random (e : Env) : CursorOnly e (random e).2 := rfl

theorem cursorOnly_getRandomChar (s : State) (e : Env) : CursorOnly e (getRandomChar s e).2 := rfl

theorem cursorOnly_getRandomColor (s : State) (e : Env) :
    CursorOnly e (getRandomColor s e).2 := rfl

theorem cursorOnly_makeLetters (s : State) (n : ℕ) (e : Env) :
    CursorOnly e (makeLetters s n e).2 := by
  induction n generalizing e with
  | zero => exact CursorOnly.refl e
  | succ k ih =>
    simp only [makeLetters]
    exact ((cursorOnly_getRandomChar s e).trans
      ((cursorOnly_getRandomColor s _).trans (cursorOnly_getRandomColor s _))).trans (ih _)

theorem cursorOnly_resizeCanvas (s : State) (e : Env) : CursorOnly e (resizeCanvas s e).2 := by
  unfold resizeCanvas
  cases s.canvas with
  | none => exact CursorOnly.refl e
  | some c => exact cursorOnly_makeLetters _ _ e

theorem cursorOnly_updateStep (s : State) (letters : List Letter) (e : Env) :
    CursorOnly e (updateStep s letters e).2.1 := by
  unfold updateStep
  simp only
  split
  · exact cursorOnly_random e
  · exact (cursorOnly_random e).trans
      ((cursorOnly_getRandomChar s _).trans (cursorOnly_getRandomColor s _))

theorem cursorOnly_updateLoop (s : State) (n : ℕ) (letters : List Letter) (e : Env)
    (hits : List ℕ) : CursorOnly e (updateLoop s n letters e hits).2.1 := by
  induction n generalizing letters e hits with
  | zero => exact CursorOnly.refl e
  | succ k ih =>
    simp only [updateLoop]
    exact (cursorOnly_updateStep s letters e).trans (ih _ _ _)

theorem cursorOnly_updateLetters (s : State) (e : Env) : CursorOnly e (updateLetters s e).2 := by
  unfold updateLetters updateLettersTraced
  split
  · exact CursorOnly.refl e
  · exact cursorOnly_updateLoop s _ _ e []

theorem cursorOnly_glitchTick (s : State) (e : Env) : CursorOnly e (glitchTick s e).2 := by
  unfold glitchTick
  simp only
  split
  · exact cursorOnly_updateLetters s e
  · exact CursorOnly.refl e

/-- A frame that does not throw stores the fresh handle in `animationId` and
schedules it; the children of the container are not touched. -/
theorem animate_ok (s : State) (e : Env) (s1 : State) (e1 : Env)
    (h : animate s e = Except.ok (s1, e1)) :
    s1.animationId = some e.frames.next
      ∧ e1.frames = (requestAnimationFrame e.frames).2
      ∧ e1.children = e.children := by
  have hc := cursorOnly_glitchTick s e
  unfold animate at h
  simp only at h
  split at h
  · exact absurd h (by simp)
  · simp only [Except.ok.injEq, Prod.mk.injEq] at h
    obtain ⟨h1, h2⟩ := h
    subst h1 h2
    rw [hc]
    exact ⟨rfl, rfl, rfl⟩

/-- C6, the constructor at `outerVignette: false`: the flag comes out `true`
(as it does for every options object), and `init` then appends the outer
vignette overlay to the container. -/
theorem outerVignette_cannot_be_disabled :
    (∀ (o : Options) (now : ℚ), (new o now).outerVignette = true)
      ∧ (new { outerVignette := some false } 0).outerVignette = true
      ∧ (∀ (e : Env) (s1 : State) (e1 : Env),
          init (new { outerVignette := some false } e.now) e = Except.ok (s1, e1) →
            Node.outerVignette ∈ e1.children) := by
  have hall : ∀ (o : Options) (now : ℚ), (new o now).outerVignette = true := by
    intro o now
    simp only [new, JS.orBool]
    split <;> rfl
  refine ⟨hall, hall _ _, ?_⟩
  intro e s1 e1 h
  unfold init at h
  simp only at h
  split at h
  · exact absurd h (by simp)
  · rename_i s3 e5 hok
    simp only [Except.ok.injEq, Prod.mk.injEq] at h
    obtain ⟨-, h2⟩ := h
    subst h2
    obtain ⟨-, -, hch⟩ := animate_ok _ _ _ _ hok
    simp only [hch]
    rw [cursorOnly_resizeCanvas]
    simp only [mount, hall, if_true]
    by_cases hcv : (new { outerVignette := some false } e.now).centerVignette = true <;>
      simp [hcv]

theorem length_makeLetters (s : State) (n : ℕ) (e : Env) :
    (makeLetters s n e).1.length = n := by
  induction n generalizing e with
  | zero => rfl
  | succ k ih => simp [makeLetters, ih]

theorem resizeCanvas_grid (s : State) (e : Env) (c : Canvas) (hc : s.canvas = some c) :
    (resizeCanvas s e).1.grid = calculateGrid s e.innerWidth e.innerHeight
      ∧ (resizeCanvas s e).1.letters.length
        = ((calculateGrid s e.innerWidth e.innerHeight).columns
            * (calculateGrid s e.innerWidth e.innerHeight).rows).toNat := by
  unfold resizeCanvas
  simp only [hc, initializeLetters, calculateGrid, length_makeLetters]
  trivial

theorem length_updateStep (s : State) (letters : List Letter) (e : Env) :
    (updateStep s letters e).1.length = letters.length := by
  unfold updateStep
  simp only
  split <;> simp

theorem length_updateLoop (s : State) (n : ℕ) (letters : List Letter) (e : Env)
    (hits : List ℕ) : (updateLoop s n letters e hits).1.length = letters.length := by
  induction n generalizing letters e hits with
  | zero => rfl
  | succ k ih =>
    simp only [updateLoop]
    rw [ih, length_updateStep]

theorem updateLetters_shape (s : State) (e : Env) :
    (updateLetters s e).1.letters.length = s.letters.length
      ∧ (updateLetters s e).1.grid = s.grid := by
  unfold updateLetters updateLettersTraced
  split
  · exact ⟨rfl, rfl⟩
  · exact ⟨length_updateLoop s _ _ e [], rfl⟩

theorem length_transitionLetters (letters out : List Letter) (redraw : Bool)
    (h : transitionLetters letters = Except.ok (out, redraw)) :
    out.length = letters.length := by
  induction letters generalizing out redraw with
  | nil =>
    simp only [transitionLetters, Except.ok.injEq, Prod.mk.injEq] at h
    rw [← h.1]
  | cons l rest ih =>
    simp only [transitionLetters] at h
    split at h
    · exact absurd h (by simp)
    · split at h
      · exact absurd h (by simp)
      · rename_i l1 r1 _ rest1 r2 hrest
        simp only [Except.ok.injEq, Prod.mk.injEq] at h
        rw [← h.1]
        simp [ih rest1 r2 hrest]

theorem glitchTick_shape (s : State) (e : Env) :
    (glitchTick s e).1.letters.length = s.letters.length ∧ (glitchTick s e).1.grid = s.grid := by
  unfold glitchTick
  simp only
  split
  · exact updateLetters_shape s e
  · exact ⟨rfl, rfl⟩

theorem smoothTick_shape (s s1 : State) (h : smoothTick s = Except.ok s1) :
    s1.letters.length = s.letters.length ∧ s1.grid = s.grid := by
  unfold smoothTick at h
  split at h
  · unfold handleSmoothTransitions at h
    split at h
    · exact absurd h (by simp)
    · rename_i r hr
      split at hr
      · exact absurd hr (by simp)
      · rename_i letters needsRedraw hl
        simp only [Except.ok.injEq] at hr h
        subst hr
        subst h
        exact ⟨length_transitionLetters _ _ _ hl, rfl⟩
  · simp only [Except.ok.injEq] at h
    subst h
    exact ⟨rfl, rfl⟩

/-- A frame changes neither the number of cells nor the grid. -/
theorem animate_shape (s : State) (e : Env) (s1 : State) (e1 : Env)
    (h : animate s e = Except.ok (s1, e1)) :
    s1.letters.length = s.letters.length ∧ s1.grid = s.grid := by
  unfold animate at h
  simp only at h
  split at h
  · exact absurd h (by simp)
  · rename_i s2 hs2
    simp only [Except.ok.injEq, Prod.mk.injEq] at h
    obtain ⟨h1, -⟩ := h
    subst h1
    obtain ⟨ha, hb⟩ := smoothTick_shape _ _ hs2
    obtain ⟨hc, hd⟩ := glitchTick_shape s e
    exact ⟨ha.trans hc, hb.trans hd⟩

/-- C4: with `charWidth = 10` and `charHeight = 20` (the values the
constructor sets) and a viewport of `w, h > 0`, `calculateGrid(w, h)` is
`{ columns: ⌈w / 10⌉, rows: ⌈h / 20⌉ }`; after `resizeCanvas()` (the step of
`init` and of the resize handler that calls `initializeLetters`) the grid is
that one and `letters.length = grid.columns * grid.rows`; and both still hold
after the frame that `init` and the resize handler run next. -/
theorem grid_sizing (s : State) (e : Env) (c : Canvas) (hc : s.canvas = some c)
    (hcw : s.charWidth = 10) (hch : s.charHeight = 20)
    (hw : 0 < e.innerWidth) (hh : 0 < e.innerHeight) :
    calculateGrid s e.innerWidth e.innerHeight
        = { columns := ⌈e.innerWidth / 10⌉, rows := ⌈e.innerHeight / 20⌉ }
      ∧ (resizeCanvas s e).1.grid
        = { columns := ⌈e.innerWidth / 10⌉, rows := ⌈e.innerHeight / 20⌉ }
      ∧ ((resizeCanvas s e).1.letters.length : ℤ)
        = (resizeCanvas s e).1.grid.columns * (resizeCanvas s e).1.grid.rows
      ∧ ∀ (s1 : State) (e1 : Env),
          animate (resizeCanvas s e).1 (resizeCanvas s e).2 = Except.ok (s1, e1) →
          s1.grid = { columns := ⌈e.innerWidth / 10⌉, rows := ⌈e.innerHeight / 20⌉ }
            ∧ (s1.letters.length : ℤ) = s1.grid.columns * s1.grid.rows := by
  have hg : calculateGrid s e.innerWidth e.innerHeight
      = { columns := ⌈e.innerWidth / 10⌉, rows := ⌈e.innerHeight / 20⌉ } := by
    simp [calculateGrid, hcw, hch]
  obtain ⟨h1, h2⟩ := resizeCanvas_grid s e c hc
  have hcols : (0 : ℤ) < ⌈e.innerWidth / 10⌉ := Int.ceil_pos.2 (by positivity)
  have hrows : (0 : ℤ) < ⌈e.innerHeight / 20⌉ := Int.ceil_pos.2 (by positivity)
  have hlen : ((resizeCanvas s e).1.letters.length : ℤ)
      = (resizeCanvas s e).1.grid.columns * (resizeCanvas s e).1.grid.rows := by
    rw [h2, h1, hg]
    exact Int.toNat_of_nonneg (mul_pos hcols hrows).le
  refine ⟨hg, h1.trans hg, hlen, ?_⟩
  intro s1 e1 hok
  obtain ⟨ha, hb⟩ := animate_shape _ _ _ _ hok
  rw [ha, hb]
  exact ⟨h1.trans hg, hlen⟩

/-- C4 at Scenario A: a viewport of 800 by 400 gives 80 columns, 20 rows and
1600 cells. -/
theorem grid_sizing_witness :
    calculateGrid (mount (new { } 0) blankEnv).1 800 400 = { columns := 80, rows := 20 }
      ∧ (resizeCanvas (mount (new { } 0) blankEnv).1 blankEnv).1.grid
        = { columns := 80, rows := 20 }
      ∧ (resizeCanvas (mount (new { } 0) blankEnv).1 blankEnv).1.letters.length = 1600 := by
  have hc1 : ⌈(800 : ℚ) / 10⌉ = 80 := by rw [Int.ceil_eq_iff]; norm_num
  have hc2 : ⌈(400 : ℚ) / 20⌉ = 20 := by rw [Int.ceil_eq_iff]; norm_num
  have h := grid_sizing (mount (new { } 0) blankEnv).1 blankEnv
    { width := 300, height := 150, attached := true } rfl rfl rfl
    (by norm_num [blankEnv]) (by norm_num [blankEnv])
  simp only [blankEnv] at h
  rw [hc1, hc2] at h
  obtain ⟨h1, h2, h3, -⟩ := h
  refine ⟨h1, h2, ?_⟩
  rw [h2] at h3
  have : ((resizeCanvas (mount (new { } 0) blankEnv).1 blankEnv).1.letters.length : ℤ)
      = (1600 : ℕ) := by
    rw [blankEnv, h3]; norm_num
  exact_mod_cast this

theorem index_eq_some {α : Type} (xs : List α) (i : ℤ) (x : α) (h : JS.index xs i = some x) :
    0 ≤ i ∧ i.toNat < xs.length ∧ xs[i.toNat]? = some x := by
  unfold JS.index at h
  split at h
  · exact absurd h (by simp)
  · rename_i hi
    push_neg at hi
    refine ⟨hi, ?_, h⟩
    exact (List.getElem?_eq_some.1 h).1

/-- A draw `r` of `Math.random()` picks a valid index of a non-empty array. -/
theorem floor_rand_lt (r : ℚ) (n : ℕ) (h0 : 0 ≤ r) (h1 : r < 1) (hn : 0 < n) :
    0 ≤ ⌊r * n⌋ ∧ ⌊r * n⌋.toNat < n := by
  have hnQ : (0 : ℚ) < n := by exact_mod_cast hn
  have hnonneg : 0 ≤ ⌊r * n⌋ := Int.floor_nonneg.2 (mul_nonneg h0 hnQ.le)
  refine ⟨hnonneg, ?_⟩
  have hlt : ⌊r * n⌋ < (n : ℤ) := by
    rw [Int.floor_lt]
    push_cast
    nlinarith
  omega

/-- What one turn of the loop does: either it `continue`s, or it writes the
reassigned cell at the index it drew. -/
theorem updateStep_cases (s : State) (letters : List Letter) (e : Env) :
    ((updateStep s letters e).1 = letters ∧ (updateStep s letters e).2.2 = none)
      ∨ ∃ (idx : ℕ) (l : Letter) (c : Option Char) (t : Option String),
          idx < letters.length ∧ letters[idx]? = some l
            ∧ (updateStep s letters e).2.2 = some idx
            ∧ (updateStep s letters e).1 = letters.set idx (reassigned s l c t) := by
  unfold updateStep
  simp only
  split
  · exact Or.inl ⟨rfl, rfl⟩
  · rename_i l hl
    obtain ⟨-, h2, h3⟩ := index_eq_some _ _ _ hl
    exact Or.inr ⟨_, l, _, _, h2, h3, rfl, rfl⟩

/-- With `Math.random()` in `[0, 1)` and at least one cell, a turn of the loop
never `continue`s. -/
theorem updateStep_hit (s : State) (letters : List Letter) (e : Env)
    (hne : letters ≠ []) (hr : 0 ≤ e.rand e.cursor ∧ e.rand e.cursor < 1) :
    ∃ (idx : ℕ) (l : Letter) (c : Option Char) (t : Option String),
      idx < letters.length ∧ letters[idx]? = some l
        ∧ (updateStep s letters e).2.2 = some idx
        ∧ (updateStep s letters e).1 = letters.set idx (reassigned s l c t) := by
  rcases updateStep_cases s letters e with h | h
  · exfalso
    have hpos : 0 < letters.length := List.length_pos.2 hne
    obtain ⟨h0, h1⟩ := floor_rand_lt (e.rand e.cursor) letters.length hr.1 hr.2 hpos
    have hsome : ∃ l, letters[⌊e.rand e.cursor * letters.length⌋.toNat]? = some l :=
      ⟨_, List.getElem?_eq_getElem h1⟩
    obtain ⟨l, hl⟩ := hsome
    have hidx : JS.index letters ⌊e.rand e.cursor * letters.length⌋ = some l := by
      unfold JS.index
      rw [if_neg (by omega)]
      exact hl
    have hcontra := h.2
    unfold updateStep at hcontra
    simp only [random, hidx] at hcontra
    exact absurd hcontra (by simp)
  · exact h

theorem rand_of_cursorOnly {e e1 : Env} (h : CursorOnly e e1) : e1.rand = e.rand := by
  unfold CursorOnly at h
  rw [h]

/-- The trace of the loop: `n` turns on a non-empty grid with draws in `[0, 1)`
append exactly `n` valid indices, and every cell outside them is untouched. -/
theorem updateLoop_trace (s : State) (n : ℕ) (letters : List Letter) (e : Env) (hits : List ℕ)
    (hne : letters ≠ []) (hrand : ∀ k, 0 ≤ e.rand k ∧ e.rand k < 1) :
    ∃ added : List ℕ, (updateLoop s n letters e hits).2.2 = hits ++ added
      ∧ added.length = n
      ∧ (∀ i ∈ added, i < letters.length)
      ∧ (∀ i, i ∉ added → (updateLoop s n letters e hits).1[i]? = letters[i]?) := by
  induction n generalizing letters e hits with
  | zero => exact ⟨[], by simp [updateLoop], rfl, by simp, fun i _ => rfl⟩
  | succ k ih =>
    obtain ⟨idx, l, c, t, hidx, -, hhit, hset⟩ := updateStep_hit s letters e hne (hrand _)
    have hlen : (updateStep s letters e).1.length = letters.length := length_updateStep s letters e
    have hne1 : (updateStep s letters e).1 ≠ [] := by
      intro hnil
      rw [hnil] at hlen
      exact hne (List.length_eq_zero.1 hlen.symm)
    have hrand1 : ∀ k, 0 ≤ (updateStep s letters e).2.1.rand k
        ∧ (updateStep s letters e).2.1.rand k < 1 := by
      rw [rand_of_cursorOnly (cursorOnly_updateStep s letters e)]
      exact hrand
    obtain ⟨added, h1, h2, h3, h4⟩ := ih (updateStep s letters e).1
      (updateStep s letters e).2.1 (hits ++ (updateStep s letters e).2.2.toList) hne1 hrand1
    refine ⟨idx :: added, ?_, by simp [h2], ?_, ?_⟩
    · simp only [updateLoop]
      rw [h1, hhit]
      simp
    · intro i hi
      rcases List.mem_cons.1 hi with rfl | hi
      · exact hidx
      · rw [← hlen]; exact h3 i hi
    · intro i hi
      simp only [updateLoop]
      rw [h4 i (fun hmem => hi (List.mem_cons_of_mem _ hmem)), hset]
      have hneq : idx ≠ i := fun heq => hi (heq ▸ List.mem_cons_self _ _)
      exact List.getElem?_set_ne hneq

theorem updateCount_pos (n : ℕ) : 0 < (updateCount n).toNat := by
  have : (1 : ℤ) ≤ updateCount n := le_max_left _ _
  omega

/-- C3 (amended): on a grid with at least one cell and draws of
`Math.random()` in `[0, 1)`, one gated tick makes exactly
`max(1, floor(0.05 * totalCells))` reassignments, each at a valid index drawn
independently (so an index can repeat): the number of distinct cells mutated is
at least 1 and at most that number, and every other cell is left as it was. -/
theorem partial_update_ratio (s : State) (e : Env) (hne : s.letters ≠ [])
    (hrand : ∀ k, 0 ≤ e.rand k ∧ e.rand k < 1) :
    ((updateLettersTraced s e).2.2.length : ℤ)
        = max 1 ⌊(s.letters.length : ℚ) * 0.05⌋
      ∧ 1 ≤ (updateLettersTraced s e).2.2.dedup.length
      ∧ ((updateLettersTraced s e).2.2.dedup.length : ℤ)
        ≤ max 1 ⌊(s.letters.length : ℚ) * 0.05⌋
      ∧ (∀ i ∈ (updateLettersTraced s e).2.2, i < s.letters.length)
      ∧ (∀ i, i ∉ (updateLettersTraced s e).2.2 →
          (updateLettersTraced s e).1.letters[i]? = s.letters[i]?) := by
  have hlen0 : s.letters.length ≠ 0 := fun h => hne (List.length_eq_zero.1 h)
  obtain ⟨added, h1, h2, h3, h4⟩ :=
    updateLoop_trace s (updateCount s.letters.length).toNat s.letters e [] hne hrand
  have hhits : (updateLettersTraced s e).2.2 = added := by
    unfold updateLettersTraced
    rw [if_neg hlen0]
    simpa using h1
  have hletters : (updateLettersTraced s e).1.letters
      = (updateLoop s (updateCount s.letters.length).toNat s.letters e []).1 := by
    unfold updateLettersTraced
    rw [if_neg hlen0]
  have hcount : ((added.length : ℕ) : ℤ) = max 1 ⌊(s.letters.length : ℚ) * 0.05⌋ := by
    rw [h2]
    have : (1 : ℤ) ≤ updateCount s.letters.length := le_max_left _ _
    rw [Int.toNat_of_nonneg (by omega)]
    rfl
  have hpos : 0 < added.length := by rw [h2]; exact updateCount_pos _
  have hdd : added.dedup ≠ [] := by
    obtain ⟨a, ha⟩ := List.exists_mem_of_length_pos hpos
    exact List.ne_nil_of_mem (List.mem_dedup.2 ha)
  rw [hhits, hletters]
  refine ⟨hcount, List.length_pos.2 hdd, ?_, h3, h4⟩
  rw [← hcount]
  exact_mod_cast (List.dedup_sublist added).length_le

/-- C3, the claim as stated fails: on 40 cells (`updateCount = 2`) with both
index draws landing on cell 0, the tick reassigns cell 0 twice; one cell is
mutated, not two, and the 39 others are as before. -/
theorem partial_update_can_repeat_a_cell :
    (updateLettersTraced (fortyCells true) blankEnv).2.2 = [0, 0]
      ∧ (updateLettersTraced (fortyCells true) blankEnv).2.2.dedup.length = 1
      ∧ max (1 : ℤ) ⌊((fortyCells true).letters.length : ℚ) * 0.05⌋ = 2
      ∧ (updateLettersTraced (fortyCells true) blankEnv).1.letters.drop 1
        = (fortyCells true).letters.drop 1 := by
  have hfl : ⌊((40 : ℕ) : ℚ) * 0.05⌋ = 2 := by rw [Int.floor_eq_iff]; norm_num
  have hcnt : (updateCount 40).toNat = 2 := by
    unfold updateCount
    rw [hfl]
    decide
  have hidx : ∀ n : ℕ, ⌊(0 : ℚ) * (n : ℚ)⌋ = 0 := by intro n; simp
  have hstep : ∀ (l : Letter) (rest : List Letter) (e : Env), e.rand e.cursor = 0 →
      updateStep (fortyCells true) (l :: rest) e
        = (reassigned (fortyCells true) l (getRandomChar (fortyCells true) (random e).2).1
              (getRandomColor (fortyCells true)
                (getRandomChar (fortyCells true) (random e).2).2).1 :: rest,
            { e with cursor := e.cursor + 3 }, some 0) := by
    intro l rest e h0
    simp only [updateStep, random, h0, hidx, JS.index, getRandomChar, getRandomColor]
    simp
  have h1 := hstep restingLetter (List.replicate 39 restingLetter) blankEnv rfl
  generalize reassigned (fortyCells true) restingLetter
    (getRandomChar (fortyCells true) (random blankEnv).2).1
    (getRandomColor (fortyCells true)
      (getRandomChar (fortyCells true) (random blankEnv).2).2).1 = l1 at h1
  have h2 := hstep l1 (List.replicate 39 restingLetter)
    { blankEnv with cursor := blankEnv.cursor + 3 } rfl
  generalize reassigned (fortyCells true) l1
    (getRandomChar (fortyCells true) (random { blankEnv with cursor := blankEnv.cursor + 3 }).2).1
    (getRandomColor (fortyCells true)
      (getRandomChar (fortyCells true)
        (random { blankEnv with cursor := blankEnv.cursor + 3 }).2).2).1 = l2 at h2
  have hrun : updateLettersTraced (fortyCells true) blankEnv
      = ({ fortyCells true with letters := l2 :: List.replicate 39 restingLetter },
          { blankEnv with cursor := blankEnv.cursor + 3 + 3 }, [0, 0]) := by
    unfold updateLettersTraced
    have hl : (fortyCells true).letters = restingLetter :: List.replicate 39 restingLetter := rfl
    rw [if_neg (by simp [fortyCells])]
    have h40 : (fortyCells true).letters.length = 40 := by simp [fortyCells]
    rw [h40, hcnt, hl]
    simp only [updateLoop, h1, h2]
    rfl
  rw [hrun]
  refine ⟨rfl, ?_, ?_, rfl⟩
  · show ([0, 0] : List ℕ).dedup.length = 1
    decide
  · have h40 : (fortyCells true).letters.length = 40 := by simp [fortyCells]
    rw [h40, hfl]
    decide

/-- The amended ratio on the 40-cell grid with every draw equal to 0. -/
theorem partial_update_ratio_witness :
    ((updateLettersTraced (fortyCells true) blankEnv).2.2.length : ℤ)
        = max 1 ⌊((fortyCells true).letters.length : ℚ) * 0.05⌋
      ∧ 1 ≤ (updateLettersTraced (fortyCells true) blankEnv).2.2.dedup.length
      ∧ ((updateLettersTraced (fortyCells true) blankEnv).2.2.dedup.length : ℤ)
        ≤ max 1 ⌊((fortyCells true).letters.length : ℚ) * 0.05⌋
      ∧ (∀ i ∈ (updateLettersTraced (fortyCells true) blankEnv).2.2,
          i < (fortyCells true).letters.length)
      ∧ (∀ i, i ∉ (updateLettersTraced (fortyCells true) blankEnv).2.2 →
          (updateLettersTraced (fortyCells true) blankEnv).1.letters[i]?
            = (fortyCells true).letters[i]?) :=
  partial_update_ratio (fortyCells true) blankEnv (by simp [fortyCells])
    (by intro k; simp [blankEnv])

/-- A cell whose colour has been snapped to its target. -/
theorem reassigned_snapped (s : State) (l : Letter) (c : Option Char) (t : Option String)
    (hsmooth : s.smooth = false) :
    (reassigned s l c t).color = (reassigned s l c t).targetColor
      ∧ (reassigned s l c t).colorProgress = 1 := by
  simp [reassigned, hsmooth]

/-- With `smooth` off, every index the loop has recorded holds a snapped cell,
whatever later turns of the loop do. -/
theorem updateLoop_snapped (s : State) (hsmooth : s.smooth = false) (n : ℕ)
    (letters : List Letter) (e : Env) (hits : List ℕ)
    (hinv : ∀ i ∈ hits, ∃ l, letters[i]? = some l ∧ l.color = l.targetColor
      ∧ l.colorProgress = 1) :
    ∀ i ∈ (updateLoop s n letters e hits).2.2,
      ∃ l, (updateLoop s n letters e hits).1[i]? = some l ∧ l.color = l.targetColor
        ∧ l.colorProgress = 1 := by
  induction n generalizing letters e hits with
  | zero => simpa [updateLoop] using hinv
  | succ k ih =>
    simp only [updateLoop]
    apply ih
    intro i hi
    rcases updateStep_cases s letters e with ⟨h1, h2⟩ | ⟨idx, l, c, t, hidx, -, hhit, hset⟩
    · rw [h1]
      rw [h2] at hi
      exact hinv i (by simpa using hi)
    · rw [hset]
      rw [hhit] at hi
      by_cases heq : idx = i
      · subst heq
        refine ⟨reassigned s l c t, ?_, reassigned_snapped s l c t hsmooth⟩
        exact List.getElem?_set_self hidx
      · rw [List.getElem?_set_ne heq]
        have hmem : i ∈ hits := by
          rcases List.mem_append.1 hi with h | h
          · exact h
          · simp at h
            exact absurd h.symm heq
        exact hinv i hmem

/-- C10: with `smooth = false`, for every grid and every outcome of the random
draws, when `updateLetters()` returns every cell it selected has `color`
equal to its `targetColor` and `colorProgress = 1`; such a cell is not in
transition (a pass of `handleSmoothTransitions` over it would change nothing
and ask for no redraw), and `animate` with `smooth = false` runs no such pass. -/
theorem snap_when_not_smooth (s : State) (e : Env) (hsmooth : s.smooth = false) :
    (∀ i ∈ (updateLettersTraced s e).2.2,
        ∃ l, (updateLetters s e).1.letters[i]? = some l
          ∧ l.color = l.targetColor ∧ l.colorProgress = 1
          ∧ transitionLetter l = Except.ok (l, false))
      ∧ smoothTick (updateLetters s e).1 = Except.ok (updateLetters s e).1 := by
  have hkeep : (updateLetters s e).1.smooth = false := by
    unfold updateLetters updateLettersTraced
    split <;> exact hsmooth
  refine ⟨?_, by simp [smoothTick, hkeep]⟩
  intro i hi
  unfold updateLetters
  unfold updateLettersTraced at hi ⊢
  split at hi
  · exact absurd hi (by simp)
  · rename_i hlen
    rw [if_neg hlen]
    obtain ⟨l, h1, h2, h3⟩ := updateLoop_snapped s hsmooth _ s.letters e []
      (by intro j hj; exact absurd hj (by simp)) i hi
    exact ⟨l, h1, h2, h3, by simp [transitionLetter, h3]⟩

/-- C10 on the 40-cell grid with `smooth: false` and every draw equal to 0. -/
theorem snap_when_not_smooth_witness :
    (∀ i ∈ (updateLettersTraced (fortyCells false) blankEnv).2.2,
        ∃ l, (updateLetters (fortyCells false) blankEnv).1.letters[i]? = some l
          ∧ l.color = l.targetColor ∧ l.colorProgress = 1
          ∧ transitionLetter l = Except.ok (l, false))
      ∧ smoothTick (updateLetters (fortyCells false) blankEnv).1
        = Except.ok (updateLetters (fortyCells false) blankEnv).1 :=
  snap_when_not_smooth (fortyCells false) blankEnv (by simp [fortyCells, new])

/-- The string `interpolateColor` builds starts with `rgb(`, so `hexToRgb`
does not parse it: a colour written by a transition frame cannot be the start
colour of the next one. -/
theorem hexToRgb_interpolateColor (a b : Rgb) (factor : ℚ) :
    hexToRgb (interpolateColor a b factor) = none := by
  have hshape : ∃ rest : List Char,
      (interpolateColor a b factor).toList = 'r' :: 'g' :: 'b' :: '(' :: rest := by
    simp only [interpolateColor, String.toList, String.data_append, List.append_assoc]
    exact ⟨_, rfl⟩
  obtain ⟨rest, hrest⟩ := hshape
  unfold hexToRgb
  rw [hrest]
  have hexp : expandShorthand ('r' :: 'g' :: 'b' :: '(' :: rest)
      = 'r' :: 'g' :: 'b' :: '(' :: rest := by
    simp [expandShorthand, stripHash]
  rw [hexp]
  have hr : isHex 'r' = false := by decide
  match rest with
  | [] => simp [stripHash]
  | [_] => simp [stripHash]
  | [_, _] => simp [stripHash, hr]
  | _ :: _ :: _ :: _ => simp [stripHash]

/-- One frame over a single cell in transition whose colour does not parse:
only `colorProgress` moves, and no redraw is asked for. -/
theorem handleSmoothTransitions_stuck (s : State) (l : Letter) (c t : String)
    (hl : s.letters = [l]) (hc : l.color = some c) (hnp : hexToRgb c = none)
    (ht : l.targetColor = some t) (hp : l.colorProgress < 1) :
    handleSmoothTransitions s
      = Except.ok ({ s with letters :=
          [{ l with colorProgress :=
              if l.colorProgress + 0.05 > 1 then 1 else l.colorProgress + 0.05 }] }, false) := by
  simp [handleSmoothTransitions, hl, transitionLetters, transitionLetter, hp, hexToRgbArg, hc, ht,
    hnp]

theorem hexToRgb_start : hexToRgb "#2b4539" = some { r := 43, g := 69, b := 57 } := by
  decide

theorem hexToRgb_target : hexToRgb "#61dca3" = some { r := 97, g := 220, b := 163 } := by
  decide

theorem interpolateColor_first_frame :
    interpolateColor { r := 43, g := 69, b := 57 } { r := 97, g := 220, b := 163 } (1 / 20)
      = "rgb(46, 77, 62)" := by
  have hr : JS.round (((43 : ℤ) : ℚ) + (((97 : ℤ) : ℚ) - ((43 : ℤ) : ℚ)) * (1 / 20)) = 46 := by
    unfold JS.round; rw [Int.floor_eq_iff]; norm_num
  have hg : JS.round (((69 : ℤ) : ℚ) + (((220 : ℤ) : ℚ) - ((69 : ℤ) : ℚ)) * (1 / 20)) = 77 := by
    unfold JS.round; rw [Int.floor_eq_iff]; norm_num
  have hb : JS.round (((57 : ℤ) : ℚ) + (((163 : ℤ) : ℚ) - ((57 : ℤ) : ℚ)) * (1 / 20)) = 62 := by
    unfold JS.round; rw [Int.floor_eq_iff]; norm_num
  unfold interpolateColor
  simp only [hr, hg, hb]
  decide

theorem interpolateColor_last_frame :
    interpolateColor { r := 43, g := 69, b := 57 } { r := 97, g := 220, b := 163 } 1
      = "rgb(97, 220, 163)" := by
  have hr : JS.round (((43 : ℤ) : ℚ) + (((97 : ℤ) : ℚ) - ((43 : ℤ) : ℚ)) * 1) = 97 := by
    unfold JS.round; rw [Int.floor_eq_iff]; norm_num
  have hg : JS.round (((69 : ℤ) : ℚ) + (((220 : ℤ) : ℚ) - ((69 : ℤ) : ℚ)) * 1) = 220 := by
    unfold JS.round; rw [Int.floor_eq_iff]; norm_num
  have hb : JS.round (((57 : ℤ) : ℚ) + (((163 : ℤ) : ℚ) - ((57 : ℤ) : ℚ)) * 1) = 163 := by
    unfold JS.round; rw [Int.floor_eq_iff]; norm_num
  unfold interpolateColor
  simp only [hr, hg, hb]
  decide

/-- The single cell right after `updateLetters()` selected it: new target
`#61dca3`, progress reset to 0, colour still the old hex string. -/
theorem oneCell_selected :
    (updateLetters oneCell secondColorEnv).1.letters
      = [{ char := some 'A', color := some "#2b4539", targetColor := some "#61dca3",
           colorProgress := 0 }] := by
  have hcnt : (updateCount 1).toNat = 1 := by
    have : ⌊((1 : ℕ) : ℚ) * 0.05⌋ = 0 := by rw [Int.floor_eq_iff]; norm_num
    unfold updateCount
    rw [this]
    decide
  have hlen : (oneCell.glitchColors.length : ℚ) = 3 := by
    have : oneCell.glitchColors.length = 3 := by decide
    rw [this]; norm_num
  have hfl : ⌊(1 / 3 : ℚ) * 3⌋ = 1 := by rw [Int.floor_eq_iff]; norm_num
  have hletters : oneCell.letters = [restingLetter] := rfl
  have hsmooth : oneCell.smooth = true := by decide
  unfold updateLetters updateLettersTraced
  rw [if_neg (by rw [hletters]; simp)]
  simp only [hletters, List.length_singleton, hcnt, updateLoop, updateStep, random, getRandomChar,
    getRandomColor, secondColorEnv, blankEnv]
  simp [JS.index, hlen, hfl, reassigned, hsmooth, restingLetter]
  exact ⟨by decide, by decide⟩

/-- The first transition frame writes an `rgb(...)` string into `color`; every
later frame finds that string unparsable and only advances `colorProgress`. -/
theorem oneCell_frames (k : ℕ) (hk : k ≤ 19) :
    smoothFrames (k + 1) (updateLetters oneCell secondColorEnv).1
      = Except.ok { (updateLetters oneCell secondColorEnv).1 with
          letters := [{ char := some 'A', color := some "rgb(46, 77, 62)",
                        targetColor := some "#61dca3", colorProgress := ((k : ℚ) + 1) / 20 }] } := by
  induction k with
  | zero =>
    simp only [smoothFrames, handleSmoothTransitions, oneCell_selected, transitionLetters,
      transitionLetter, hexToRgbArg, hexToRgb_start, hexToRgb_target]
    norm_num
    exact interpolateColor_first_frame
  | succ j ih =>
    have hj : j ≤ 19 := by omega
    have hlt : ((j : ℚ) + 1) / 20 < 1 := by
      have : (j : ℚ) ≤ 18 := by exact_mod_cast (by omega : j ≤ 18)
      linarith
    have hnp : hexToRgb "rgb(46, 77, 62)" = none := by decide
    rw [smoothFrames, ih hj]
    simp only
    rw [handleSmoothTransitions_stuck _ _ "rgb(46, 77, 62)" "#61dca3" rfl rfl hnp rfl hlt]
    simp only
    have hnot : ¬ (((j : ℚ) + 1) / 20 + 0.05 > 1) := by
      have : (j : ℚ) ≤ 18 := by exact_mod_cast (by omega : j ≤ 18)
      norm_num
      linarith
    rw [if_neg hnot]
    congr 4
    push_cast
    norm_num
    ring

/-- C2, evaluated on one cell: `updateLetters()` selects the cell (target
`#61dca3`, progress 0, colour `#2b4539`); after 19 frames of
`handleSmoothTransitions()` its progress is `19/20`, after the 20th it is `1`,
and its colour is still the `rgb(46, 77, 62)` of the first frame, which is not
the target `rgb(97, 220, 163)`. -/
theorem smooth_transition_stalls_after_first_frame :
    (updateLetters oneCell secondColorEnv).1.letters
        = [{ char := some 'A', color := some "#2b4539", targetColor := some "#61dca3",
             colorProgress := 0 }]
      ∧ smoothFrames 19 (updateLetters oneCell secondColorEnv).1
        = Except.ok { (updateLetters oneCell secondColorEnv).1 with
            letters := [{ char := some 'A', color := some "rgb(46, 77, 62)",
                          targetColor := some "#61dca3", colorProgress := 19 / 20 }] }
      ∧ smoothFrames 20 (updateLetters oneCell secondColorEnv).1
        = Except.ok { (updateLetters oneCell secondColorEnv).1 with
            letters := [{ char := some 'A', color := some "rgb(46, 77, 62)",
                          targetColor := some "#61dca3", colorProgress := 1 }] }
      ∧ hexToRgb "#61dca3" = some { r := 97, g := 220, b := 163 }
      ∧ interpolateColor { r := 43, g := 69, b := 57 } { r := 97, g := 220, b := 163 } 1
        = "rgb(97, 220, 163)"
      ∧ "rgb(46, 77, 62)" ≠ "rgb(97, 220, 163)" := by
  refine ⟨oneCell_selected, ?_, ?_, hexToRgb_target, interpolateColor_last_frame, by decide⟩
  · have h := oneCell_frames 18 (by decide)
    norm_num at h
    exact h
  · have h := oneCell_frames 19 (by decide)
    norm_num at h
    exact h

theorem progress_makeLetters (s : State) (n : ℕ) (e : Env) :
    ∀ l ∈ (makeLetters s n e).1, l.colorProgress = 1 := by
  induction n generalizing e with
  | zero => intro l hl; simp [makeLetters] at hl
  | succ k ih =>
    intro l hl
    simp only [makeLetters, List.mem_cons] at hl
    rcases hl with rfl | hl
    · rfl
    · exact ih _ l hl

/-- Cells that are not in transition are left alone, and ask for no redraw. -/
theorem transitionLetters_idle (letters : List Letter)
    (h : ∀ l ∈ letters, l.colorProgress = 1) :
    transitionLetters letters = Except.ok (letters, false) := by
  induction letters with
  | nil => rfl
  | cons l rest ih =>
    have hl : l.colorProgress = 1 := h l (List.mem_cons_self _ _)
    have hrest := ih (fun x hx => h x (List.mem_cons_of_mem _ hx))
    simp [transitionLetters, transitionLetter, hl, hrest]

/-- A frame with the gate of `updateLetters` closed and no cell in transition
only schedules the next frame. -/
theorem animate_idle (s : State) (e : Env) (hgate : ¬ (e.now - s.lastGlitchTime ≥ s.glitchSpeed))
    (h : ∀ l ∈ s.letters, l.colorProgress = 1) :
    animate s e = Except.ok ({ s with animationId := some e.frames.next },
      { e with frames := (requestAnimationFrame e.frames).2 }) := by
  have hg : glitchTick s e = (s, e) := by
    unfold glitchTick
    simp only
    rw [if_neg hgate]
  have hs : smoothTick s = Except.ok s := by
    unfold smoothTick handleSmoothTransitions
    rw [transitionLetters_idle s.letters h]
    split <;> rfl
  unfold animate
  simp only [hg, hs]
  rfl

/-- What `resizeCanvas()` leaves alone, and the fresh cells it makes. -/
theorem resizeCanvas_fields (s : State) (e : Env) (c : Canvas) (hc : s.canvas = some c) :
    (resizeCanvas s e).1.lastGlitchTime = s.lastGlitchTime
      ∧ (resizeCanvas s e).1.glitchSpeed = s.glitchSpeed
      ∧ (resizeCanvas s e).1.animationId = s.animationId
      ∧ (resizeCanvas s e).1.canvas
        = some { c with width := e.innerWidth * JS.orNum (some e.devicePixelRatio) 1
                        height := e.innerHeight * JS.orNum (some e.devicePixelRatio) 1 }
      ∧ ∀ l ∈ (resizeCanvas s e).1.letters, l.colorProgress = 1 := by
  unfold resizeCanvas
  simp only [hc, initializeLetters, calculateGrid]
  refine ⟨?_, ?_, ?_, ?_, progress_makeLetters _ _ _⟩ <;> trivial

/-- After `destroy()` a LetterGlitch is stopped and its canvas is detached, but
the body of its resize timer calls `animate()` again: if that frame does not
throw, a new frame is scheduled and `animationId` holds its handle. -/
theorem resizeCallback_schedules (s : State) (e : Env) (s1 : State) (e1 : Env)
    (h : resizeCallback s e = Except.ok (s1, e1)) :
    ∃ id, s1.animationId = some id ∧ id ∈ e1.frames.pending := by
  unfold resizeCallback at h
  simp only at h
  obtain ⟨h1, h2, -⟩ := animate_ok _ _ _ _ h
  exact ⟨_, h1, by rw [h2]; simp [requestAnimationFrame]⟩

/-- C5, evaluated on LetterGlitch with the default options on an 800 by 400
page: `init` starts the loop (handle 1); `destroy()` cancels it, leaving
`animationId = null`, no scheduled frame and the canvas detached, with the
resize listener still registered; the body of the resize timer then schedules
frame 2 and stores it in `animationId`: the destroyed effect runs again. -/
theorem destroyed_glitch_restarts_on_resize :
    ∃ (s1 : State) (e1 : Env), init (new { } 0) blankEnv = Except.ok (s1, e1)
      ∧ s1.animationId = some 1
      ∧ (destroy s1 e1).1.animationId = none
      ∧ (destroy s1 e1).2.frames.pending = []
      ∧ Node.canvas ∉ (destroy s1 e1).2.children
      ∧ (destroy s1 e1).2.listening = true
      ∧ ∃ (s2 : State) (e2 : Env),
          resizeCallback (destroy s1 e1).1 (destroy s1 e1).2 = Except.ok (s2, e2)
            ∧ s2.animationId = some 2 ∧ e2.frames.pending = [2] := by
  -- the state and page after `mount` and `resizeCanvas`
  obtain ⟨hA1, hA2, -, hA4, hA5⟩ := resizeCanvas_fields (mount (new { } 0) blankEnv).1
    (mount (new { } 0) blankEnv).2 { width := 300, height := 150, attached := true } rfl
  have hAe := cursorOnly_resizeCanvas (mount (new { } 0) blankEnv).1 (mount (new { } 0) blankEnv).2
  generalize hr : resizeCanvas (mount (new { } 0) blankEnv).1 (mount (new { } 0) blankEnv).2 = r
    at hA1 hA2 hA4 hA5 hAe
  obtain ⟨sA, eA⟩ := r
  simp only at hA1 hA2 hA4 hA5 hAe
  have hlast : sA.lastGlitchTime = 0 := hA1
  have hspeed : sA.glitchSpeed = 50 := by rw [hA2]; norm_num [mount, new, JS.orNum]
  have hcanvas : sA.canvas = some { width := 800, height := 400, attached := true } := by
    rw [hA4]; norm_num [mount, new, JS.orNum, JS.orBool, blankEnv]
  have heA : eA = { (mount (new { } 0) blankEnv).2 with cursor := eA.cursor } := hAe
  have hnow : eA.now = 0 := by rw [heA]; rfl
  have hframes : eA.frames = { next := 1, pending := [] } := by rw [heA]; rfl
  have hchildren : eA.children = [Node.canvas, Node.outerVignette] := by
    rw [heA]; simp [mount, new, JS.orBool, blankEnv]
  have hidleA := animate_idle sA eA (by rw [hnow, hlast, hspeed]; norm_num) hA5
  have hinit : init (new { } 0) blankEnv
      = Except.ok ({ sA with animationId := some 1 },
          { eA with frames := { next := 2, pending := [1] }, listening := true }) := by
    unfold init
    simp only [hr, hidleA, hframes, requestAnimationFrame]
    rfl
  refine ⟨_, _, hinit, rfl, ?_⟩
  -- `destroy()`
  have hdestroy : destroy { sA with animationId := some 1 }
        { eA with frames := { next := 2, pending := [1] }, listening := true }
      = ({ sA with animationId := none
                   canvas := some { width := 800, height := 400, attached := false } },
          { eA with frames := { next := 2, pending := [] }
                    listening := true
                    children := [Node.outerVignette] }) := by
    simp [destroy, stop, cancelAnimationFrame, hcanvas, hchildren]
  rw [hdestroy]
  refine ⟨rfl, rfl, by simp, rfl, ?_⟩
  -- the body of the resize timer after `destroy()`
  generalize hsD : ({ sA with animationId := none
                              canvas := some { width := 800, height := 400, attached := false } }
    : State) = sD
  generalize heD : ({ eA with frames := { next := 2, pending := [] }
                              listening := true
                              children := [Node.outerVignette] } : Env) = eD
  have hstop : stop sD eD = (sD, eD) := by
    have : sD.animationId = none := by rw [← hsD]
    simp [stop, this]
  obtain ⟨hB1, hB2, -, -, hB5⟩ := resizeCanvas_fields sD eD
    { width := 800, height := 400, attached := false } (by rw [← hsD])
  have hBe := cursorOnly_resizeCanvas sD eD
  generalize hrB : resizeCanvas sD eD = rB at hB1 hB2 hB5 hBe
  obtain ⟨sB, eB⟩ := rB
  simp only at hB1 hB2 hB5 hBe
  have heB : eB = { eD with cursor := eB.cursor } := hBe
  have hnowB : eB.now = 0 := by rw [heB, ← heD]; exact hnow
  have hframesB : eB.frames = { next := 2, pending := [] } := by rw [heB, ← heD]
  have hlastB : sB.lastGlitchTime = 0 := by rw [hB1, ← hsD]; exact hlast
  have hspeedB : sB.glitchSpeed = 50 := by rw [hB2, ← hsD]; exact hspeed
  have hidleB := animate_idle sB eB (by rw [hnowB, hlastB, hspeedB]; norm_num) hB5
  refine ⟨{ sB with animationId := some 2 },
    { eB with frames := { next := 3, pending := [2] } }, ?_, rfl, rfl⟩
  unfold resizeCallback
  simp only [hstop, hrB, hidleB, hframesB, requestAnimationFrame]
  rfl

end LetterGlitch

namespace SquaresBackground

/-- The sibling effect does stay stopped: none of its handlers schedules a
frame, so from a state with `animationId = null` every sequence of events ends
with `animationId = null` and no new frame scheduled. -/
theorem squares_stays_stopped (events : List Event) (s : State) (e : Env)
    (h : s.animationId = none) :
    (handleAll s e events).1.animationId = none
      ∧ (handleAll s e events).2.frames = e.frames := by
  induction events generalizing s e with
  | nil => exact ⟨h, rfl⟩
  | cons ev rest ih =>
    have hstop : stop s e = (s, e) := by simp [stop, h]
    have hstep : (handle s e ev).1.animationId = none ∧ (handle s e ev).2.frames = e.frames := by
      cases ev with
      | resizeCallback =>
        refine ⟨?_, rfl⟩
        simp only [handle, resizeCanvas]
        cases s.canvas <;> exact h
      | mouseMove x y =>
        refine ⟨?_, rfl⟩
        simp only [handle, handleMouseMove]
        cases s.canvas with
        | none => exact h
        | some c =>
          simp only
          cases s.hoveredSquare with
          | none => exact h
          | some hs =>
            simp only
            split <;> exact h
      | mouseLeave => exact ⟨h, rfl⟩
      | stop =>
        show (stop s e).1.animationId = none ∧ (stop s e).2.frames = e.frames
        rw [hstop]
        exact ⟨h, rfl⟩
      | destroy =>
        show (destroy s e).1.animationId = none ∧ (destroy s e).2.frames = e.frames
        unfold destroy
        rw [hstop]
        simp only
        cases s.canvas with
        | none => exact ⟨h, rfl⟩
        | some c =>
          simp only
          split <;> exact ⟨h, rfl⟩
    simp only [handleAll]
    obtain ⟨h1, h2⟩ := ih (handle s e ev).1 (handle s e ev).2 hstep.1
    exact ⟨h1, h2.trans hstep.2⟩

end SquaresBackground

namespace LetterGlitch

/-- On a cell whose two colours are strings the callback of
`handleSmoothTransitions()` does not throw. -/
theorem transitionLetter_defined (l : Letter) (c t : String) (hc : l.color = some c)
    (ht : l.targetColor = some t) :
    ∃ (y : Letter) (r : Bool), transitionLetter l = Except.ok (y, r) := by
  unfold transitionLetter
  by_cases hp : l.colorProgress < 1
  · simp only [hp, if_true, hexToRgbArg, hc, ht]
    cases hexToRgb c <;> cases hexToRgb t <;> exact ⟨_, _, rfl⟩
  · simp only [hp, if_false]
    exact ⟨_, _, rfl⟩

/-- A cell asks for a redraw only when it is in transition and both of its
colours parse. -/
theorem transitionLetter_redraw (l y : Letter) (c t : String) (hc : l.color = some c)
    (ht : l.targetColor = some t) (h : transitionLetter l = Except.ok (y, true)) :
    l.colorProgress < 1 ∧ (∃ a, hexToRgb c = some a) ∧ (∃ b, hexToRgb t = some b) := by
  unfold transitionLetter at h
  by_cases hp : l.colorProgress < 1
  · simp only [hp, if_true, hexToRgbArg, hc, ht] at h
    cases ha : hexToRgb c with
    | none =>
      rw [ha] at h
      cases hb : hexToRgb t <;> rw [hb] at h <;> simp at h
    | some a =>
      cases hb : hexToRgb t with
      | none => rw [ha, hb] at h; simp at h
      | some b => exact ⟨hp, ⟨a, rfl⟩, ⟨b, rfl⟩⟩
  · simp only [hp, if_false, Except.ok.injEq, Prod.mk.injEq] at h
    exact absurd h.2 (by simp)

/-- A cell in transition with a colour that does not parse keeps its displayed
colour and asks for no redraw; only its `colorProgress` moves. -/
theorem transitionLetter_malformed (l : Letter) (c t : String) (hc : l.color = some c)
    (ht : l.targetColor = some t) (hp : l.colorProgress < 1)
    (hbad : hexToRgb c = none ∨ hexToRgb t = none) :
    transitionLetter l
      = Except.ok ({ l with colorProgress :=
          if l.colorProgress + 0.05 > 1 then 1 else l.colorProgress + 0.05 }, false) := by
  unfold transitionLetter
  simp only [hp, if_true, hexToRgbArg, hc, ht]
  rcases hbad with h | h
  · rw [h]
  · rw [h]
    cases hexToRgb c <;> rfl

/-- The `forEach` over cells whose colours are all strings: it does not throw,
it runs the callback on every cell in place, and `needsRedraw` is set exactly
when some cell asked for it. -/
theorem transitionLetters_defined (letters : List Letter)
    (hdef : ∀ x ∈ letters, x.color ≠ none ∧ x.targetColor ≠ none) :
    ∃ (out : List Letter) (redraw : Bool),
      transitionLetters letters = Except.ok (out, redraw)
        ∧ (∀ (j : ℕ) (x : Letter), letters[j]? = some x →
            ∃ (y : Letter) (r : Bool), transitionLetter x = Except.ok (y, r) ∧ out[j]? = some y)
        ∧ (redraw = true → ∃ (j : ℕ) (x y : Letter),
            letters[j]? = some x ∧ transitionLetter x = Except.ok (y, true)) := by
  induction letters with
  | nil =>
    refine ⟨[], false, rfl, ?_, ?_⟩
    · intro j x hx
      simp at hx
    · intro h
      exact absurd h (by simp)
  | cons l rest ih =>
    obtain ⟨hl1, hl2⟩ := hdef l (List.mem_cons_self _ _)
    obtain ⟨c, hc⟩ := Option.ne_none_iff_exists'.1 hl1
    obtain ⟨t, ht⟩ := Option.ne_none_iff_exists'.1 hl2
    obtain ⟨y, r, hy⟩ := transitionLetter_defined l c t hc ht
    obtain ⟨out, redraw, hout, hcells, hredraw⟩ :=
      ih (fun x hx => hdef x (List.mem_cons_of_mem _ hx))
    refine ⟨y :: out, r || redraw, ?_, ?_, ?_⟩
    · simp only [transitionLetters, hy, hout]
    · intro j x hx
      cases j with
      | zero =>
        simp only [List.getElem?_cons_zero, Option.some.injEq] at hx
        subst hx
        exact ⟨y, r, hy, by simp⟩
      | succ k =>
        simp only [List.getElem?_cons_succ] at hx
        obtain ⟨y1, r1, h1, h2⟩ := hcells k x hx
        exact ⟨y1, r1, h1, by simpa using h2⟩
    · intro h
      cases r with
      | true => exact ⟨0, l, y, by simp, hy⟩
      | false =>
        simp only [Bool.false_or] at h
        obtain ⟨j, x, y1, h1, h2⟩ := hredraw h
        exact ⟨j + 1, x, y1, by simpa using h1, h2⟩

/-- C11: in a grid whose colours are all strings, take a cell in transition
(`colorProgress < 1`) whose `color` or `targetColor` is not parsed by
`hexToRgb`.  The callback leaves its displayed colour unchanged and asks for
no redraw; the whole call of `handleSmoothTransitions()` throws nothing, the
cell still shows the same colour afterwards, and if a redraw was asked for it
came from another cell (one in transition whose two colours parse). -/
theorem malformed_colour_skipped (s : State) (i : ℕ) (l : Letter) (c t : String)
    (hdef : ∀ x ∈ s.letters, x.color ≠ none ∧ x.targetColor ≠ none)
    (hi : s.letters[i]? = some l) (hc : l.color = some c) (ht : l.targetColor = some t)
    (hp : l.colorProgress < 1) (hbad : hexToRgb c = none ∨ hexToRgb t = none) :
    (∃ y : Letter, transitionLetter l = Except.ok (y, false) ∧ y.color = l.color)
      ∧ ∃ (s1 : State) (needsRedraw : Bool),
          handleSmoothTransitions s = Except.ok (s1, needsRedraw)
            ∧ (∃ y : Letter, s1.letters[i]? = some y ∧ y.color = l.color)
            ∧ (needsRedraw = true → ∃ (j : ℕ) (x : Letter) (a b : Rgb),
                j ≠ i ∧ s.letters[j]? = some x ∧ x.colorProgress < 1
                  ∧ x.color.bind hexToRgb = some a ∧ x.targetColor.bind hexToRgb = some b) := by
  have hcell := transitionLetter_malformed l c t hc ht hp hbad
  refine ⟨⟨_, hcell, rfl⟩, ?_⟩
  obtain ⟨out, redraw, hout, hcells, hredraw⟩ := transitionLetters_defined s.letters hdef
  refine ⟨{ s with letters := out }, redraw, ?_, ?_, ?_⟩
  · simp only [handleSmoothTransitions, hout]
  · obtain ⟨y, r, hy, hget⟩ := hcells i l hi
    rw [hcell] at hy
    simp only [Except.ok.injEq, Prod.mk.injEq] at hy
    refine ⟨y, hget, ?_⟩
    rw [← hy.1]
  · intro hr
    obtain ⟨j, x, y, hx, hy⟩ := hredraw hr
    obtain ⟨hx1, hx2⟩ := hdef x (List.getElem?_mem hx)
    obtain ⟨cx, hcx⟩ := Option.ne_none_iff_exists'.1 hx1
    obtain ⟨tx, htx⟩ := Option.ne_none_iff_exists'.1 hx2
    obtain ⟨hpx, ⟨a, ha⟩, ⟨b, hb⟩⟩ := transitionLetter_redraw x y cx tx hcx htx hy
    refine ⟨j, x, a, b, ?_, hx, hpx, by simp [hcx, ha], by simp [htx, hb]⟩
    intro hji
    subst hji
    rw [hi] at hx
    simp only [Option.some.injEq] at hx
    subst hx
    rw [hcell] at hy
    simp at hy

/-- C11 on a single cell showing `rgb(46, 77, 62)` on its way to `#61dca3`:
the call returns, the cell still shows `rgb(46, 77, 62)`, and no redraw is
asked for. -/
theorem malformed_colour_skipped_witness :
    (∃ y : Letter, transitionLetter
          { char := some 'A', color := some "rgb(46, 77, 62)", targetColor := some "#61dca3",
            colorProgress := 1 / 20 } = Except.ok (y, false)
        ∧ y.color = some "rgb(46, 77, 62)")
      ∧ ∃ (s1 : State) (needsRedraw : Bool),
          handleSmoothTransitions stalledCell = Except.ok (s1, needsRedraw)
            ∧ (∃ y : Letter, s1.letters[0]? = some y ∧ y.color = some "rgb(46, 77, 62)")
            ∧ (needsRedraw = true → ∃ (j : ℕ) (x : Letter) (a b : Rgb),
                j ≠ 0 ∧ stalledCell.letters[j]? = some x ∧ x.colorProgress < 1
                  ∧ x.color.bind hexToRgb = some a ∧ x.targetColor.bind hexToRgb = some b) :=
  malformed_colour_skipped stalledCell 0
    { char := some 'A', color := some "rgb(46, 77, 62)", targetColor := some "#61dca3",
      colorProgress := 1 / 20 }
    "rgb(46, 77, 62)" "#61dca3"
    (by intro x hx; simp [stalledCell] at hx; subst hx; simp)
    rfl rfl rfl (by norm_num) (Or.inl (by decide))

/-- `Math.round` of an integer is that integer. -/
theorem round_intCast (z : ℤ) : JS.round (z : ℚ) = z := by
  unfold JS.round
  rw [Int.floor_eq_iff]
  constructor <;> norm_num

/-- C12: for colours with integer channels in `0..255`,
`interpolateColor(start, end, 0)` is the `rgb(r, g, b)` string of `start` and
`interpolateColor(start, end, 1)` is that of `end`, in all three channels. -/
theorem interpolateColor_boundary (a b : Rgb)
    (_ha : ∀ v ∈ [a.r, a.g, a.b], 0 ≤ v ∧ v ≤ 255)
    (_hb : ∀ v ∈ [b.r, b.g, b.b], 0 ≤ v ∧ v ≤ 255) :
    interpolateColor a b 0
        = "rgb(" ++ toString a.r ++ ", " ++ toString a.g ++ ", " ++ toString a.b ++ ")"
      ∧ interpolateColor a b 1
        = "rgb(" ++ toString b.r ++ ", " ++ toString b.g ++ ", " ++ toString b.b ++ ")" := by
  have h0 : ∀ x y : ℤ, JS.round ((x : ℚ) + ((y : ℚ) - (x : ℚ)) * 0) = x := by
    intro x y
    rw [mul_zero, add_zero]
    exact round_intCast x
  have h1 : ∀ x y : ℤ, JS.round ((x : ℚ) + ((y : ℚ) - (x : ℚ)) * 1) = y := by
    intro x y
    rw [mul_one, add_sub_cancel]
    exact round_intCast y
  unfold interpolateColor
  constructor
  · simp only [h0]
  · simp only [h1]

/-- C12 between the first two palette colours, `#2b4539` and `#61dca3`. -/
theorem interpolateColor_boundary_witness :
    interpolateColor { r := 43, g := 69, b := 57 } { r := 97, g := 220, b := 163 } 0
        = "rgb(43, 69, 57)"
      ∧ interpolateColor { r := 43, g := 69, b := 57 } { r := 97, g := 220, b := 163 } 1
        = "rgb(97, 220, 163)" :=
  interpolateColor_boundary { r := 43, g := 69, b := 57 } { r := 97, g := 220, b := 163 }
    (by decide) (by decide)

/-- On an empty cell sequence `drawLetters()` sends nothing to the canvas and
`updateLetters()` changes neither the effect nor the page (it draws no random
number). -/
theorem empty_grid_noop (s : State) (e : Env) (h : s.letters = []) :
    drawLetters s e = [] ∧ updateLetters s e = (s, e) := by
  constructor
  · simp [drawLetters, h]
  · simp [updateLetters, updateLettersTraced, h]

/-- C13: with `charWidth = 10` and `charHeight = 20`, a width of 0 gives 0
columns and a height of 0 gives 0 rows; `initializeLetters` on such a grid
allocates no cell and draws no random number; on the resulting state
`drawLetters()` sends nothing to the canvas and `updateLetters()` returns the
state and the page unchanged.  All four are total functions: nothing fails. -/
theorem zero_size_noop (s : State) (e : Env) (width height : ℚ)
    (_hcw : s.charWidth = 10) (_hch : s.charHeight = 20) (hz : width = 0 ∨ height = 0) :
    (width = 0 → (calculateGrid s width height).columns = 0)
      ∧ (height = 0 → (calculateGrid s width height).rows = 0)
      ∧ (initializeLetters s e (calculateGrid s width height).columns
          (calculateGrid s width height).rows).1.letters = []
      ∧ (initializeLetters s e (calculateGrid s width height).columns
          (calculateGrid s width height).rows).2 = e
      ∧ (∀ e1 : Env, drawLetters (initializeLetters s e (calculateGrid s width height).columns
          (calculateGrid s width height).rows).1 e1 = [])
      ∧ (∀ e1 : Env, updateLetters (initializeLetters s e (calculateGrid s width height).columns
          (calculateGrid s width height).rows).1 e1
            = ((initializeLetters s e (calculateGrid s width height).columns
                (calculateGrid s width height).rows).1, e1)) := by
  have hcols : width = 0 → (calculateGrid s width height).columns = 0 := by
    intro hw
    simp [calculateGrid, hw]
  have hrows : height = 0 → (calculateGrid s width height).rows = 0 := by
    intro hh
    simp [calculateGrid, hh]
  have htotal : ((calculateGrid s width height).columns
      * (calculateGrid s width height).rows).toNat = 0 := by
    rcases hz with hw | hh
    · rw [hcols hw]; simp
    · rw [hrows hh]; simp
  have hinit : initializeLetters s e (calculateGrid s width height).columns
      (calculateGrid s width height).rows
        = ({ s with grid := { columns := (calculateGrid s width height).columns
                              rows := (calculateGrid s width height).rows }
                    letters := [] }, e) := by
    unfold initializeLetters
    simp only [htotal, makeLetters]
  have hletters : (initializeLetters s e (calculateGrid s width height).columns
      (calculateGrid s width height).rows).1.letters = [] := by
    rw [hinit]
  refine ⟨hcols, hrows, hletters, by rw [hinit], ?_, ?_⟩
  · intro e1
    exact (empty_grid_noop _ e1 hletters).1
  · intro e1
    exact (empty_grid_noop _ e1 hletters).2

/-- C13 on a viewport of width 0 and height 400. -/
theorem zero_size_noop_witness :
    ((0 : ℚ) = 0 → (calculateGrid (new { } 0) 0 400).columns = 0)
      ∧ ((400 : ℚ) = 0 → (calculateGrid (new { } 0) 0 400).rows = 0)
      ∧ (initializeLetters (new { } 0) blankEnv (calculateGrid (new { } 0) 0 400).columns
          (calculateGrid (new { } 0) 0 400).rows).1.letters = []
      ∧ (initializeLetters (new { } 0) blankEnv (calculateGrid (new { } 0) 0 400).columns
          (calculateGrid (new { } 0) 0 400).rows).2 = blankEnv
      ∧ (∀ e1 : Env, drawLetters (initializeLetters (new { } 0) blankEnv
          (calculateGrid (new { } 0) 0 400).columns
          (calculateGrid (new { } 0) 0 400).rows).1 e1 = [])
      ∧ (∀ e1 : Env, updateLetters (initializeLetters (new { } 0) blankEnv
          (calculateGrid (new { } 0) 0 400).columns
          (calculateGrid (new { } 0) 0 400).rows).1 e1
            = ((initializeLetters (new { } 0) blankEnv
                (calculateGrid (new { } 0) 0 400).columns
                (calculateGrid (new { } 0) 0 400).rows).1, e1)) :=
  zero_size_noop (new { } 0) blankEnv 0 400 rfl rfl (Or.inl rfl)

end LetterGlitch

namespace Dbl

/-- The binary exponent of a positive number, from its bracket of powers of 2. -/
theorem log_eq {q : ℚ} {e : ℤ} (hq : 0 < q) (hlo : (2 : ℚ) ^ e ≤ q)
    (hhi : q < (2 : ℚ) ^ (e + 1)) : Int.log 2 q = e := by
  apply le_antisymm
  · have h := (Int.lt_zpow_iff_log_lt (R := ℚ) (b := 2) (by norm_num) hq (x := e + 1)).1
      (by exact_mod_cast hhi)
    omega
  · exact (Int.zpow_le_iff_le_log (R := ℚ) (b := 2) (by norm_num) hq).1 (by exact_mod_cast hlo)

theorem roundHalfEven_of_floor (x : ℚ) (f : ℤ) (hf : ⌊x⌋ = f) :
    roundHalfEven x
      = if x - f < 1 / 2 then f else if 1 / 2 < x - f then f + 1
        else if f % 2 = 0 then f else f + 1 := by
  subst hf
  rfl

/-- How a positive number in the normal range is rounded: with
`2 ^ e ≤ q < 2 ^ (e + 1)` the significand is `q / 2 ^ (e - 52)` rounded half to
even. -/
theorem round_eq {q : ℚ} (e m : ℤ) (hq : 0 < q) (hlo : (2 : ℚ) ^ e ≤ q)
    (hhi : q < (2 : ℚ) ^ (e + 1)) (he : -1022 ≤ e)
    (hm : roundHalfEven (q / (2 : ℚ) ^ (e - 52)) = m) :
    round q = (m : ℚ) * (2 : ℚ) ^ (e - 52) := by
  unfold round
  rw [if_neg hq.ne', abs_of_pos hq, log_eq hq hlo hhi, max_eq_left he]
  simp only [hm]

theorem sub_zero_zero : sub 0 0 = 0 := by
  simp [sub, round]

theorem div_zero_left (b : ℚ) : div 0 b = 0 := by
  simp [div, round]

theorem mul_zero_left (b : ℚ) : mul 0 b = 0 := by
  simp [mul, round]

end Dbl

namespace JS

theorem rem_zero_left (n : ℚ) : rem 0 n = 0 := by
  simp [rem, trunc]

end JS

namespace SquaresBackground

/-- The numeric literal `20.1` is the double `2828823515942093 / 2 ^ 47`. -/
theorem literal_size : Dbl.round 20.1 = 2828823515942093 / 140737488355328 := by
  have hf : ⌊(20.1 : ℚ) / (2 : ℚ) ^ ((4 : ℤ) - 52)⌋ = 5657647031884185 := by
    rw [Int.floor_eq_iff]; norm_num
  have hm : Dbl.roundHalfEven ((20.1 : ℚ) / (2 : ℚ) ^ ((4 : ℤ) - 52)) = 5657647031884186 := by
    rw [Dbl.roundHalfEven_of_floor _ _ hf]; norm_num
  rw [Dbl.round_eq 4 5657647031884186 (by norm_num) (by norm_num) (by norm_num) (by norm_num) hm]
  norm_num

/-- With a canvas, `handleMouseMove` changes nothing but `hoveredSquare`, which
becomes the cell computed from the pointer and the current offset. -/
theorem handleMouseMove_eq (s : State) (e : Env) (clientX clientY : ℚ) (c : Canvas)
    (hc : s.canvas = some c) :
    handleMouseMove s e clientX clientY
      = { s with hoveredSquare := some (Point.mk
            ⌊(clientX - e.rectLeft + s.gridOffset.x
                - (⌊s.gridOffset.x / s.squareSize⌋ : ℚ) * s.squareSize) / s.squareSize⌋
            ⌊(clientY - e.rectTop + s.gridOffset.y
                - (⌊s.gridOffset.y / s.squareSize⌋ : ℚ) * s.squareSize) / s.squareSize⌋) } := by
  unfold handleMouseMove
  simp only [hc]
  cases hh : s.hoveredSquare with
  | none => rfl
  | some h =>
    simp only
    split
    · rfl
    · rename_i hcond
      push_neg at hcond
      obtain ⟨hx, hy⟩ := hcond
      have hEq : h = Point.mk
          ⌊(clientX - e.rectLeft + s.gridOffset.x
              - (⌊s.gridOffset.x / s.squareSize⌋ : ℚ) * s.squareSize) / s.squareSize⌋
          ⌊(clientY - e.rectTop + s.gridOffset.y
              - (⌊s.gridOffset.y / s.squareSize⌋ : ℚ) * s.squareSize) / s.squareSize⌋ := by
        cases h
        simp only [Point.mk.injEq]
        exact ⟨hx, hy⟩
      rw [← hEq, ← hh, ← hc]

/-- `canvas.width + squareSize`: `200 + 20.1` is the double `220.1`. -/
theorem bound_x :
    Dbl.add 200 (2828823515942093 / 140737488355328)
      = 7744080296751923 / 35184372088832 := by
  have hf : ⌊(200 + (2828823515942093 / 140737488355328) : ℚ)
      / (2 : ℚ) ^ ((7 : ℤ) - 52)⌋ = 7744080296751923 := by
    rw [Int.floor_eq_iff]; norm_num
  have hm : Dbl.roundHalfEven ((200 + (2828823515942093 / 140737488355328) : ℚ)
      / (2 : ℚ) ^ ((7 : ℤ) - 52)) = 7744080296751923 := by
    rw [Dbl.roundHalfEven_of_floor _ _ hf]; norm_num
  show Dbl.round (200 + (2828823515942093 / 140737488355328) : ℚ)
    = 7744080296751923 / 35184372088832
  rw [Dbl.round_eq (7) 7744080296751923 (by norm_num) (by norm_num) (by norm_num) (by norm_num) hm]
  norm_num

/-- `canvas.height + squareSize`: `20 + 20.1` is the double `40.1`. -/
theorem bound_y :
    Dbl.add 20 (2828823515942093 / 140737488355328)
      = 5643573283048653 / 140737488355328 := by
  have hf : ⌊(20 + (2828823515942093 / 140737488355328) : ℚ)
      / (2 : ℚ) ^ ((5 : ℤ) - 52)⌋ = 5643573283048653 := by
    rw [Int.floor_eq_iff]; norm_num
  have hm : Dbl.roundHalfEven ((20 + (2828823515942093 / 140737488355328) : ℚ)
      / (2 : ℚ) ^ ((5 : ℤ) - 52)) = 5643573283048653 := by
    rw [Dbl.roundHalfEven_of_floor _ _ hf]; norm_num
  show Dbl.round (20 + (2828823515942093 / 140737488355328) : ℚ)
    = 5643573283048653 / 140737488355328
  rw [Dbl.round_eq (5) 5643573283048653 (by norm_num) (by norm_num) (by norm_num) (by norm_num) hm]
  norm_num

/-- Turn 0 of the loop: `0.0 + 20.1` is the double `20.1`. -/
theorem step_0 :
    Dbl.add 0 (2828823515942093 / 140737488355328)
      = 2828823515942093 / 140737488355328 := by
  have hf : ⌊(0 + (2828823515942093 / 140737488355328) : ℚ)
      / (2 : ℚ) ^ ((4 : ℤ) - 52)⌋ = 5657647031884186 := by
    rw [Int.floor_eq_iff]; norm_num
  have hm : Dbl.roundHalfEven ((0 + (2828823515942093 / 140737488355328) : ℚ)
      / (2 : ℚ) ^ ((4 : ℤ) - 52)) = 5657647031884186 := by
    rw [Dbl.roundHalfEven_of_floor _ _ hf]; norm_num
  show Dbl.round (0 + (2828823515942093 / 140737488355328) : ℚ)
    = 2828823515942093 / 140737488355328
  rw [Dbl.round_eq (4) 5657647031884186 (by norm_num) (by norm_num) (by norm_num) (by norm_num) hm]
  norm_num

/-- Turn 1 of the loop: `20.1 + 20.1` is the double `40.2`. -/
theorem step_1 :
    Dbl.add (2828823515942093 / 140737488355328) (2828823515942093 / 140737488355328)
      = 2828823515942093 / 70368744177664 := by
  have hf : ⌊((2828823515942093 / 140737488355328) + (2828823515942093 / 140737488355328) : ℚ)
      / (2 : ℚ) ^ ((5 : ℤ) - 52)⌋ = 5657647031884186 := by
    rw [Int.floor_eq_iff]; norm_num
  have hm : Dbl.roundHalfEven (((2828823515942093 / 140737488355328) + (2828823515942093 / 140737488355328) : ℚ)
      / (2 : ℚ) ^ ((5 : ℤ) - 52)) = 5657647031884186 := by
    rw [Dbl.roundHalfEven_of_floor _ _ hf]; norm_num
  show Dbl.round ((2828823515942093 / 140737488355328) + (2828823515942093 / 140737488355328) : ℚ)
    = 2828823515942093 / 70368744177664
  rw [Dbl.round_eq (5) 5657647031884186 (by norm_num) (by norm_num) (by norm_num) (by norm_num) hm]
  norm_num

/-- Turn 2 of the loop: `40.2 + 20.1` is the double `60.300000000000004`. -/
theorem step_2 :
    Dbl.add (2828823515942093 / 70368744177664) (2828823515942093 / 140737488355328)
      = 8486470547826279 / 140737488355328 := by
  have hf : ⌊((2828823515942093 / 70368744177664) + (2828823515942093 / 140737488355328) : ℚ)
      / (2 : ℚ) ^ ((5 : ℤ) - 52)⌋ = 8486470547826279 := by
    rw [Int.floor_eq_iff]; norm_num
  have hm : Dbl.roundHalfEven (((2828823515942093 / 70368744177664) + (2828823515942093 / 140737488355328) : ℚ)
      / (2 : ℚ) ^ ((5 : ℤ) - 52)) = 8486470547826279 := by
    rw [Dbl.roundHalfEven_of_floor _ _ hf]; norm_num
  show Dbl.round ((2828823515942093 / 70368744177664) + (2828823515942093 / 140737488355328) : ℚ)
    = 8486470547826279 / 140737488355328
  rw [Dbl.round_eq (5) 8486470547826279 (by norm_num) (by norm_num) (by norm_num) (by norm_num) hm]
  norm_num

/-- Turn 3 of the loop: `60.300000000000004 + 20.1` is the double `80.4`. -/
theorem step_3 :
    Dbl.add (8486470547826279 / 140737488355328) (2828823515942093 / 140737488355328)
      = 2828823515942093 / 35184372088832 := by
  have hf : ⌊((8486470547826279 / 140737488355328) + (2828823515942093 / 140737488355328) : ℚ)
      / (2 : ℚ) ^ ((6 : ℤ) - 52)⌋ = 5657647031884186 := by
    rw [Int.floor_eq_iff]; norm_num
  have hm : Dbl.roundHalfEven (((8486470547826279 / 140737488355328) + (2828823515942093 / 140737488355328) : ℚ)
      / (2 : ℚ) ^ ((6 : ℤ) - 52)) = 5657647031884186 := by
    rw [Dbl.roundHalfEven_of_floor _ _ hf]; norm_num
  show Dbl.round ((8486470547826279 / 140737488355328) + (2828823515942093 / 140737488355328) : ℚ)
    = 2828823515942093 / 35184372088832
  rw [Dbl.round_eq (6) 5657647031884186 (by norm_num) (by norm_num) (by norm_num) (by norm_num) hm]
  norm_num

/-- Turn 4 of the loop: `80.4 + 20.1` is the double `100.5`. -/
theorem step_4 :
    Dbl.add (2828823515942093 / 35184372088832) (2828823515942093 / 140737488355328)
      = 201 / 2 := by
  have hf : ⌊((2828823515942093 / 35184372088832) + (2828823515942093 / 140737488355328) : ℚ)
      / (2 : ℚ) ^ ((6 : ℤ) - 52)⌋ = 7072058789855232 := by
    rw [Int.floor_eq_iff]; norm_num
  have hm : Dbl.roundHalfEven (((2828823515942093 / 35184372088832) + (2828823515942093 / 140737488355328) : ℚ)
      / (2 : ℚ) ^ ((6 : ℤ) - 52)) = 7072058789855232 := by
    rw [Dbl.roundHalfEven_of_floor _ _ hf]; norm_num
  show Dbl.round ((2828823515942093 / 35184372088832) + (2828823515942093 / 140737488355328) : ℚ)
    = 201 / 2
  rw [Dbl.round_eq (6) 7072058789855232 (by norm_num) (by norm_num) (by norm_num) (by norm_num) hm]
  norm_num

/-- Turn 5 of the loop: `100.5 + 20.1` is the double `120.6`. -/
theorem step_5 :
    Dbl.add (201 / 2) (2828823515942093 / 140737488355328)
      = 4243235273913139 / 35184372088832 := by
  have hf : ⌊((201 / 2) + (2828823515942093 / 140737488355328) : ℚ)
      / (2 : ℚ) ^ ((6 : ℤ) - 52)⌋ = 8486470547826278 := by
    rw [Int.floor_eq_iff]; norm_num
  have hm : Dbl.roundHalfEven (((201 / 2) + (2828823515942093 / 140737488355328) : ℚ)
      / (2 : ℚ) ^ ((6 : ℤ) - 52)) = 8486470547826278 := by
    rw [Dbl.roundHalfEven_of_floor _ _ hf]; norm_num
  show Dbl.round ((201 / 2) + (2828823515942093 / 140737488355328) : ℚ)
    = 4243235273913139 / 35184372088832
  rw [Dbl.round_eq (6) 8486470547826278 (by norm_num) (by norm_num) (by norm_num) (by norm_num) hm]
  norm_num

/-- Turn 6 of the loop: `120.6 + 20.1` is the double `140.7`. -/
theorem step_6 :
    Dbl.add (4243235273913139 / 35184372088832) (2828823515942093 / 140737488355328)
      = 2475220576449331 / 17592186044416 := by
  have hf : ⌊((4243235273913139 / 35184372088832) + (2828823515942093 / 140737488355328) : ℚ)
      / (2 : ℚ) ^ ((7 : ℤ) - 52)⌋ = 4950441152898662 := by
    rw [Int.floor_eq_iff]; norm_num
  have hm : Dbl.roundHalfEven (((4243235273913139 / 35184372088832) + (2828823515942093 / 140737488355328) : ℚ)
      / (2 : ℚ) ^ ((7 : ℤ) - 52)) = 4950441152898662 := by
    rw [Dbl.roundHalfEven_of_floor _ _ hf]; norm_num
  show Dbl.round ((4243235273913139 / 35184372088832) + (2828823515942093 / 140737488355328) : ℚ)
    = 2475220576449331 / 17592186044416
  rw [Dbl.round_eq (7) 4950441152898662 (by norm_num) (by norm_num) (by norm_num) (by norm_num) hm]
  norm_num

/-- Turn 7 of the loop: `140.7 + 20.1` is the double `160.79999999999998`. -/
theorem step_7 :
    Dbl.add (2475220576449331 / 17592186044416) (2828823515942093 / 140737488355328)
      = 5657647031884185 / 35184372088832 := by
  have hf : ⌊((2475220576449331 / 17592186044416) + (2828823515942093 / 140737488355328) : ℚ)
      / (2 : ℚ) ^ ((7 : ℤ) - 52)⌋ = 5657647031884185 := by
    rw [Int.floor_eq_iff]; norm_num
  have hm : Dbl.roundHalfEven (((2475220576449331 / 17592186044416) + (2828823515942093 / 140737488355328) : ℚ)
      / (2 : ℚ) ^ ((7 : ℤ) - 52)) = 5657647031884185 := by
    rw [Dbl.roundHalfEven_of_floor _ _ hf]; norm_num
  show Dbl.round ((2475220576449331 / 17592186044416) + (2828823515942093 / 140737488355328) : ℚ)
    = 5657647031884185 / 35184372088832
  rw [Dbl.round_eq (7) 5657647031884185 (by norm_num) (by norm_num) (by norm_num) (by norm_num) hm]
  norm_num

/-- Turn 8 of the loop: `160.79999999999998 + 20.1` is the double `180.89999999999998`. -/
theorem step_8 :
    Dbl.add (5657647031884185 / 35184372088832) (2828823515942093 / 140737488355328)
      = 1591213227717427 / 8796093022208 := by
  have hf : ⌊((5657647031884185 / 35184372088832) + (2828823515942093 / 140737488355328) : ℚ)
      / (2 : ℚ) ^ ((7 : ℤ) - 52)⌋ = 6364852910869708 := by
    rw [Int.floor_eq_iff]; norm_num
  have hm : Dbl.roundHalfEven (((5657647031884185 / 35184372088832) + (2828823515942093 / 140737488355328) : ℚ)
      / (2 : ℚ) ^ ((7 : ℤ) - 52)) = 6364852910869708 := by
    rw [Dbl.roundHalfEven_of_floor _ _ hf]; norm_num
  show Dbl.round ((5657647031884185 / 35184372088832) + (2828823515942093 / 140737488355328) : ℚ)
    = 1591213227717427 / 8796093022208
  rw [Dbl.round_eq (7) 6364852910869708 (by norm_num) (by norm_num) (by norm_num) (by norm_num) hm]
  norm_num

/-- Turn 9 of the loop: `180.89999999999998 + 20.1` is the double `200.99999999999997`. -/
theorem step_9 :
    Dbl.add (1591213227717427 / 8796093022208) (2828823515942093 / 140737488355328)
      = 7072058789855231 / 35184372088832 := by
  have hf : ⌊((1591213227717427 / 8796093022208) + (2828823515942093 / 140737488355328) : ℚ)
      / (2 : ℚ) ^ ((7 : ℤ) - 52)⌋ = 7072058789855231 := by
    rw [Int.floor_eq_iff]; norm_num
  have hm : Dbl.roundHalfEven (((1591213227717427 / 8796093022208) + (2828823515942093 / 140737488355328) : ℚ)
      / (2 : ℚ) ^ ((7 : ℤ) - 52)) = 7072058789855231 := by
    rw [Dbl.roundHalfEven_of_floor _ _ hf]; norm_num
  show Dbl.round ((1591213227717427 / 8796093022208) + (2828823515942093 / 140737488355328) : ℚ)
    = 7072058789855231 / 35184372088832
  rw [Dbl.round_eq (7) 7072058789855231 (by norm_num) (by norm_num) (by norm_num) (by norm_num) hm]
  norm_num

/-- Turn 10 of the loop: `200.99999999999997 + 20.1` is the double `221.09999999999997`. -/
theorem step_10 :
    Dbl.add (7072058789855231 / 35184372088832) (2828823515942093 / 140737488355328)
      = 3889632334420377 / 17592186044416 := by
  have hf : ⌊((7072058789855231 / 35184372088832) + (2828823515942093 / 140737488355328) : ℚ)
      / (2 : ℚ) ^ ((7 : ℤ) - 52)⌋ = 7779264668840754 := by
    rw [Int.floor_eq_iff]; norm_num
  have hm : Dbl.roundHalfEven (((7072058789855231 / 35184372088832) + (2828823515942093 / 140737488355328) : ℚ)
      / (2 : ℚ) ^ ((7 : ℤ) - 52)) = 7779264668840754 := by
    rw [Dbl.roundHalfEven_of_floor _ _ hf]; norm_num
  show Dbl.round ((7072058789855231 / 35184372088832) + (2828823515942093 / 140737488355328) : ℚ)
    = 3889632334420377 / 17592186044416
  rw [Dbl.round_eq (7) 7779264668840754 (by norm_num) (by norm_num) (by norm_num) (by norm_num) hm]
  norm_num

/-- `20.1 - 0` is `20.1` itself. -/
theorem minus_start_1 :
    Dbl.sub (2828823515942093 / 140737488355328) 0
      = 2828823515942093 / 140737488355328 := by
  have hf : ⌊((2828823515942093 / 140737488355328) - 0 : ℚ)
      / (2 : ℚ) ^ ((4 : ℤ) - 52)⌋ = 5657647031884186 := by
    rw [Int.floor_eq_iff]; norm_num
  have hm : Dbl.roundHalfEven (((2828823515942093 / 140737488355328) - 0 : ℚ)
      / (2 : ℚ) ^ ((4 : ℤ) - 52)) = 5657647031884186 := by
    rw [Dbl.roundHalfEven_of_floor _ _ hf]; norm_num
  show Dbl.round ((2828823515942093 / 140737488355328) - 0 : ℚ)
    = 2828823515942093 / 140737488355328
  rw [Dbl.round_eq (4) 5657647031884186 (by norm_num) (by norm_num) (by norm_num) (by norm_num) hm]
  norm_num

/-- `40.2 - 0` is `40.2` itself. -/
theorem minus_start_2 :
    Dbl.sub (2828823515942093 / 70368744177664) 0
      = 2828823515942093 / 70368744177664 := by
  have hf : ⌊((2828823515942093 / 70368744177664) - 0 : ℚ)
      / (2 : ℚ) ^ ((5 : ℤ) - 52)⌋ = 5657647031884186 := by
    rw [Int.floor_eq_iff]; norm_num
  have hm : Dbl.roundHalfEven (((2828823515942093 / 70368744177664) - 0 : ℚ)
      / (2 : ℚ) ^ ((5 : ℤ) - 52)) = 5657647031884186 := by
    rw [Dbl.roundHalfEven_of_floor _ _ hf]; norm_num
  show Dbl.round ((2828823515942093 / 70368744177664) - 0 : ℚ)
    = 2828823515942093 / 70368744177664
  rw [Dbl.round_eq (5) 5657647031884186 (by norm_num) (by norm_num) (by norm_num) (by norm_num) hm]
  norm_num

/-- `60.300000000000004 - 0` is `60.300000000000004` itself. -/
theorem minus_start_3 :
    Dbl.sub (8486470547826279 / 140737488355328) 0
      = 8486470547826279 / 140737488355328 := by
  have hf : ⌊((8486470547826279 / 140737488355328) - 0 : ℚ)
      / (2 : ℚ) ^ ((5 : ℤ) - 52)⌋ = 8486470547826279 := by
    rw [Int.floor_eq_iff]; norm_num
  have hm : Dbl.roundHalfEven (((8486470547826279 / 140737488355328) - 0 : ℚ)
      / (2 : ℚ) ^ ((5 : ℤ) - 52)) = 8486470547826279 := by
    rw [Dbl.roundHalfEven_of_floor _ _ hf]; norm_num
  show Dbl.round ((8486470547826279 / 140737488355328) - 0 : ℚ)
    = 8486470547826279 / 140737488355328
  rw [Dbl.round_eq (5) 8486470547826279 (by norm_num) (by norm_num) (by norm_num) (by norm_num) hm]
  norm_num

/-- `80.4 - 0` is `80.4` itself. -/
theorem minus_start_4 :
    Dbl.sub (2828823515942093 / 35184372088832) 0
      = 2828823515942093 / 35184372088832 := by
  have hf : ⌊((2828823515942093 / 35184372088832) - 0 : ℚ)
      / (2 : ℚ) ^ ((6 : ℤ) - 52)⌋ = 5657647031884186 := by
    rw [Int.floor_eq_iff]; norm_num
  have hm : Dbl.roundHalfEven (((2828823515942093 / 35184372088832) - 0 : ℚ)
      / (2 : ℚ) ^ ((6 : ℤ) - 52)) = 5657647031884186 := by
    rw [Dbl.roundHalfEven_of_floor _ _ hf]; norm_num
  show Dbl.round ((2828823515942093 / 35184372088832) - 0 : ℚ)
    = 2828823515942093 / 35184372088832
  rw [Dbl.round_eq (6) 5657647031884186 (by norm_num) (by norm_num) (by norm_num) (by norm_num) hm]
  norm_num

/-- `100.5 - 0` is `100.5` itself. -/
theorem minus_start_5 :
    Dbl.sub (201 / 2) 0
      = 201 / 2 := by
  have hf : ⌊((201 / 2) - 0 : ℚ)
      / (2 : ℚ) ^ ((6 : ℤ) - 52)⌋ = 7072058789855232 := by
    rw [Int.floor_eq_iff]; norm_num
  have hm : Dbl.roundHalfEven (((201 / 2) - 0 : ℚ)
      / (2 : ℚ) ^ ((6 : ℤ) - 52)) = 7072058789855232 := by
    rw [Dbl.roundHalfEven_of_floor _ _ hf]; norm_num
  show Dbl.round ((201 / 2) - 0 : ℚ)
    = 201 / 2
  rw [Dbl.round_eq (6) 7072058789855232 (by norm_num) (by norm_num) (by norm_num) (by norm_num) hm]
  norm_num

/-- `120.6 - 0` is `120.6` itself. -/
theorem minus_start_6 :
    Dbl.sub (4243235273913139 / 35184372088832) 0
      = 4243235273913139 / 35184372088832 := by
  have hf : ⌊((4243235273913139 / 35184372088832) - 0 : ℚ)
      / (2 : ℚ) ^ ((6 : ℤ) - 52)⌋ = 8486470547826278 := by
    rw [Int.floor_eq_iff]; norm_num
  have hm : Dbl.roundHalfEven (((4243235273913139 / 35184372088832) - 0 : ℚ)
      / (2 : ℚ) ^ ((6 : ℤ) - 52)) = 8486470547826278 := by
    rw [Dbl.roundHalfEven_of_floor _ _ hf]; norm_num
  show Dbl.round ((4243235273913139 / 35184372088832) - 0 : ℚ)
    = 4243235273913139 / 35184372088832
  rw [Dbl.round_eq (6) 8486470547826278 (by norm_num) (by norm_num) (by norm_num) (by norm_num) hm]
  norm_num

/-- `140.7 - 0` is `140.7` itself. -/
theorem minus_start_7 :
    Dbl.sub (2475220576449331 / 17592186044416) 0
      = 2475220576449331 / 17592186044416 := by
  have hf : ⌊((2475220576449331 / 17592186044416) - 0 : ℚ)
      / (2 : ℚ) ^ ((7 : ℤ) - 52)⌋ = 4950441152898662 := by
    rw [Int.floor_eq_iff]; norm_num
  have hm : Dbl.roundHalfEven (((2475220576449331 / 17592186044416) - 0 : ℚ)
      / (2 : ℚ) ^ ((7 : ℤ) - 52)) = 4950441152898662 := by
    rw [Dbl.roundHalfEven_of_floor _ _ hf]; norm_num
  show Dbl.round ((2475220576449331 / 17592186044416) - 0 : ℚ)
    = 2475220576449331 / 17592186044416
  rw [Dbl.round_eq (7) 4950441152898662 (by norm_num) (by norm_num) (by norm_num) (by norm_num) hm]
  norm_num

/-- `160.79999999999998 - 0` is `160.79999999999998` itself. -/
theorem minus_start_8 :
    Dbl.sub (5657647031884185 / 35184372088832) 0
      = 5657647031884185 / 35184372088832 := by
  have hf : ⌊((5657647031884185 / 35184372088832) - 0 : ℚ)
      / (2 : ℚ) ^ ((7 : ℤ) - 52)⌋ = 5657647031884185 := by
    rw [Int.floor_eq_iff]; norm_num
  have hm : Dbl.roundHalfEven (((5657647031884185 / 35184372088832) - 0 : ℚ)
      / (2 : ℚ) ^ ((7 : ℤ) - 52)) = 5657647031884185 := by
    rw [Dbl.roundHalfEven_of_floor _ _ hf]; norm_num
  show Dbl.round ((5657647031884185 / 35184372088832) - 0 : ℚ)
    = 5657647031884185 / 35184372088832
  rw [Dbl.round_eq (7) 5657647031884185 (by norm_num) (by norm_num) (by norm_num) (by norm_num) hm]
  norm_num

/-- `180.89999999999998 - 0` is `180.89999999999998` itself. -/
theorem minus_start_9 :
    Dbl.sub (1591213227717427 / 8796093022208) 0
      = 1591213227717427 / 8796093022208 := by
  have hf : ⌊((1591213227717427 / 8796093022208) - 0 : ℚ)
      / (2 : ℚ) ^ ((7 : ℤ) - 52)⌋ = 6364852910869708 := by
    rw [Int.floor_eq_iff]; norm_num
  have hm : Dbl.roundHalfEven (((1591213227717427 / 8796093022208) - 0 : ℚ)
      / (2 : ℚ) ^ ((7 : ℤ) - 52)) = 6364852910869708 := by
    rw [Dbl.roundHalfEven_of_floor _ _ hf]; norm_num
  show Dbl.round ((1591213227717427 / 8796093022208) - 0 : ℚ)
    = 1591213227717427 / 8796093022208
  rw [Dbl.round_eq (7) 6364852910869708 (by norm_num) (by norm_num) (by norm_num) (by norm_num) hm]
  norm_num

/-- `200.99999999999997 - 0` is `200.99999999999997` itself. -/
theorem minus_start_10 :
    Dbl.sub (7072058789855231 / 35184372088832) 0
      = 7072058789855231 / 35184372088832 := by
  have hf : ⌊((7072058789855231 / 35184372088832) - 0 : ℚ)
      / (2 : ℚ) ^ ((7 : ℤ) - 52)⌋ = 7072058789855231 := by
    rw [Int.floor_eq_iff]; norm_num
  have hm : Dbl.roundHalfEven (((7072058789855231 / 35184372088832) - 0 : ℚ)
      / (2 : ℚ) ^ ((7 : ℤ) - 52)) = 7072058789855231 := by
    rw [Dbl.roundHalfEven_of_floor _ _ hf]; norm_num
  show Dbl.round ((7072058789855231 / 35184372088832) - 0 : ℚ)
    = 7072058789855231 / 35184372088832
  rw [Dbl.round_eq (7) 7072058789855231 (by norm_num) (by norm_num) (by norm_num) (by norm_num) hm]
  norm_num

/-- `20.1 / 20.1` is the double `1.0`. -/
theorem quotient_1 :
    Dbl.div (2828823515942093 / 140737488355328) (2828823515942093 / 140737488355328)
      = 1 := by
  have hf : ⌊((2828823515942093 / 140737488355328) / (2828823515942093 / 140737488355328) : ℚ)
      / (2 : ℚ) ^ ((0 : ℤ) - 52)⌋ = 4503599627370496 := by
    rw [Int.floor_eq_iff]; norm_num
  have hm : Dbl.roundHalfEven (((2828823515942093 / 140737488355328) / (2828823515942093 / 140737488355328) : ℚ)
      / (2 : ℚ) ^ ((0 : ℤ) - 52)) = 4503599627370496 := by
    rw [Dbl.roundHalfEven_of_floor _ _ hf]; norm_num
  show Dbl.round ((2828823515942093 / 140737488355328) / (2828823515942093 / 140737488355328) : ℚ)
    = 1
  rw [Dbl.round_eq (0) 4503599627370496 (by norm_num) (by norm_num) (by norm_num) (by norm_num) hm]
  norm_num

/-- `40.2 / 20.1` is the double `2.0`. -/
theorem quotient_2 :
    Dbl.div (2828823515942093 / 70368744177664) (2828823515942093 / 140737488355328)
      = 2 := by
  have hf : ⌊((2828823515942093 / 70368744177664) / (2828823515942093 / 140737488355328) : ℚ)
      / (2 : ℚ) ^ ((1 : ℤ) - 52)⌋ = 4503599627370496 := by
    rw [Int.floor_eq_iff]; norm_num
  have hm : Dbl.roundHalfEven (((2828823515942093 / 70368744177664) / (2828823515942093 / 140737488355328) : ℚ)
      / (2 : ℚ) ^ ((1 : ℤ) - 52)) = 4503599627370496 := by
    rw [Dbl.roundHalfEven_of_floor _ _ hf]; norm_num
  show Dbl.round ((2828823515942093 / 70368744177664) / (2828823515942093 / 140737488355328) : ℚ)
    = 2
  rw [Dbl.round_eq (1) 4503599627370496 (by norm_num) (by norm_num) (by norm_num) (by norm_num) hm]
  norm_num

/-- `60.300000000000004 / 20.1` is the double `3.0`. -/
theorem quotient_3 :
    Dbl.div (8486470547826279 / 140737488355328) (2828823515942093 / 140737488355328)
      = 3 := by
  have hf : ⌊((8486470547826279 / 140737488355328) / (2828823515942093 / 140737488355328) : ℚ)
      / (2 : ℚ) ^ ((1 : ℤ) - 52)⌋ = 6755399441055744 := by
    rw [Int.floor_eq_iff]; norm_num
  have hm : Dbl.roundHalfEven (((8486470547826279 / 140737488355328) / (2828823515942093 / 140737488355328) : ℚ)
      / (2 : ℚ) ^ ((1 : ℤ) - 52)) = 6755399441055744 := by
    rw [Dbl.roundHalfEven_of_floor _ _ hf]; norm_num
  show Dbl.round ((8486470547826279 / 140737488355328) / (2828823515942093 / 140737488355328) : ℚ)
    = 3
  rw [Dbl.round_eq (1) 6755399441055744 (by norm_num) (by norm_num) (by norm_num) (by norm_num) hm]
  norm_num

/-- `80.4 / 20.1` is the double `4.0`. -/
theorem quotient_4 :
    Dbl.div (2828823515942093 / 35184372088832) (2828823515942093 / 140737488355328)
      = 4 := by
  have hf : ⌊((2828823515942093 / 35184372088832) / (2828823515942093 / 140737488355328) : ℚ)
      / (2 : ℚ) ^ ((2 : ℤ) - 52)⌋ = 4503599627370496 := by
    rw [Int.floor_eq_iff]; norm_num
  have hm : Dbl.roundHalfEven (((2828823515942093 / 35184372088832) / (2828823515942093 / 140737488355328) : ℚ)
      / (2 : ℚ) ^ ((2 : ℤ) - 52)) = 4503599627370496 := by
    rw [Dbl.roundHalfEven_of_floor _ _ hf]; norm_num
  show Dbl.round ((2828823515942093 / 35184372088832) / (2828823515942093 / 140737488355328) : ℚ)
    = 4
  rw [Dbl.round_eq (2) 4503599627370496 (by norm_num) (by norm_num) (by norm_num) (by norm_num) hm]
  norm_num

/-- `100.5 / 20.1` is the double `5.0`. -/
theorem quotient_5 :
    Dbl.div (201 / 2) (2828823515942093 / 140737488355328)
      = 5 := by
  have hf : ⌊((201 / 2) / (2828823515942093 / 140737488355328) : ℚ)
      / (2 : ℚ) ^ ((2 : ℤ) - 52)⌋ = 5629499534213119 := by
    rw [Int.floor_eq_iff]; norm_num
  have hm : Dbl.roundHalfEven (((201 / 2) / (2828823515942093 / 140737488355328) : ℚ)
      / (2 : ℚ) ^ ((2 : ℤ) - 52)) = 5629499534213120 := by
    rw [Dbl.roundHalfEven_of_floor _ _ hf]; norm_num
  show Dbl.round ((201 / 2) / (2828823515942093 / 140737488355328) : ℚ)
    = 5
  rw [Dbl.round_eq (2) 5629499534213120 (by norm_num) (by norm_num) (by norm_num) (by norm_num) hm]
  norm_num

/-- `120.6 / 20.1` is the double `5.999999999999999`. -/
theorem quotient_6 :
    Dbl.div (4243235273913139 / 35184372088832) (2828823515942093 / 140737488355328)
      = 6755399441055743 / 1125899906842624 := by
  have hf : ⌊((4243235273913139 / 35184372088832) / (2828823515942093 / 140737488355328) : ℚ)
      / (2 : ℚ) ^ ((2 : ℤ) - 52)⌋ = 6755399441055743 := by
    rw [Int.floor_eq_iff]; norm_num
  have hm : Dbl.roundHalfEven (((4243235273913139 / 35184372088832) / (2828823515942093 / 140737488355328) : ℚ)
      / (2 : ℚ) ^ ((2 : ℤ) - 52)) = 6755399441055743 := by
    rw [Dbl.roundHalfEven_of_floor _ _ hf]; norm_num
  show Dbl.round ((4243235273913139 / 35184372088832) / (2828823515942093 / 140737488355328) : ℚ)
    = 6755399441055743 / 1125899906842624
  rw [Dbl.round_eq (2) 6755399441055743 (by norm_num) (by norm_num) (by norm_num) (by norm_num) hm]
  norm_num

/-- `140.7 / 20.1` is the double `6.999999999999999`. -/
theorem quotient_7 :
    Dbl.div (2475220576449331 / 17592186044416) (2828823515942093 / 140737488355328)
      = 7881299347898367 / 1125899906842624 := by
  have hf : ⌊((2475220576449331 / 17592186044416) / (2828823515942093 / 140737488355328) : ℚ)
      / (2 : ℚ) ^ ((2 : ℤ) - 52)⌋ = 7881299347898366 := by
    rw [Int.floor_eq_iff]; norm_num
  have hm : Dbl.roundHalfEven (((2475220576449331 / 17592186044416) / (2828823515942093 / 140737488355328) : ℚ)
      / (2 : ℚ) ^ ((2 : ℤ) - 52)) = 7881299347898367 := by
    rw [Dbl.roundHalfEven_of_floor _ _ hf]; norm_num
  show Dbl.round ((2475220576449331 / 17592186044416) / (2828823515942093 / 140737488355328) : ℚ)
    = 7881299347898367 / 1125899906842624
  rw [Dbl.round_eq (2) 7881299347898367 (by norm_num) (by norm_num) (by norm_num) (by norm_num) hm]
  norm_num

/-- `160.79999999999998 / 20.1` is the double `7.999999999999998`. -/
theorem quotient_8 :
    Dbl.div (5657647031884185 / 35184372088832) (2828823515942093 / 140737488355328)
      = 4503599627370495 / 562949953421312 := by
  have hf : ⌊((5657647031884185 / 35184372088832) / (2828823515942093 / 140737488355328) : ℚ)
      / (2 : ℚ) ^ ((2 : ℤ) - 52)⌋ = 9007199254740990 := by
    rw [Int.floor_eq_iff]; norm_num
  have hm : Dbl.roundHalfEven (((5657647031884185 / 35184372088832) / (2828823515942093 / 140737488355328) : ℚ)
      / (2 : ℚ) ^ ((2 : ℤ) - 52)) = 9007199254740990 := by
    rw [Dbl.roundHalfEven_of_floor _ _ hf]; norm_num
  show Dbl.round ((5657647031884185 / 35184372088832) / (2828823515942093 / 140737488355328) : ℚ)
    = 4503599627370495 / 562949953421312
  rw [Dbl.round_eq (2) 9007199254740990 (by norm_num) (by norm_num) (by norm_num) (by norm_num) hm]
  norm_num

/-- `180.89999999999998 / 20.1` is the double `8.999999999999998`. -/
theorem quotient_9 :
    Dbl.div (1591213227717427 / 8796093022208) (2828823515942093 / 140737488355328)
      = 5066549580791807 / 562949953421312 := by
  have hf : ⌊((1591213227717427 / 8796093022208) / (2828823515942093 / 140737488355328) : ℚ)
      / (2 : ℚ) ^ ((3 : ℤ) - 52)⌋ = 5066549580791807 := by
    rw [Int.floor_eq_iff]; norm_num
  have hm : Dbl.roundHalfEven (((1591213227717427 / 8796093022208) / (2828823515942093 / 140737488355328) : ℚ)
      / (2 : ℚ) ^ ((3 : ℤ) - 52)) = 5066549580791807 := by
    rw [Dbl.roundHalfEven_of_floor _ _ hf]; norm_num
  show Dbl.round ((1591213227717427 / 8796093022208) / (2828823515942093 / 140737488355328) : ℚ)
    = 5066549580791807 / 562949953421312
  rw [Dbl.round_eq (3) 5066549580791807 (by norm_num) (by norm_num) (by norm_num) (by norm_num) hm]
  norm_num

/-- `200.99999999999997 / 20.1` is the double `9.999999999999998`. -/
theorem quotient_10 :
    Dbl.div (7072058789855231 / 35184372088832) (2828823515942093 / 140737488355328)
      = 5629499534213119 / 562949953421312 := by
  have hf : ⌊((7072058789855231 / 35184372088832) / (2828823515942093 / 140737488355328) : ℚ)
      / (2 : ℚ) ^ ((3 : ℤ) - 52)⌋ = 5629499534213118 := by
    rw [Int.floor_eq_iff]; norm_num
  have hm : Dbl.roundHalfEven (((7072058789855231 / 35184372088832) / (2828823515942093 / 140737488355328) : ℚ)
      / (2 : ℚ) ^ ((3 : ℤ) - 52)) = 5629499534213119 := by
    rw [Dbl.roundHalfEven_of_floor _ _ hf]; norm_num
  show Dbl.round ((7072058789855231 / 35184372088832) / (2828823515942093 / 140737488355328) : ℚ)
    = 5629499534213119 / 562949953421312
  rw [Dbl.round_eq (3) 5629499534213119 (by norm_num) (by norm_num) (by norm_num) (by norm_num) hm]
  norm_num

/-- `125 / 20.1` is the double `6.218905472636815`. -/
theorem quotient_pointer_x :
    Dbl.div 125 (2828823515942093 / 140737488355328)
      = 7001865092304875 / 1125899906842624 := by
  have hf : ⌊(125 / (2828823515942093 / 140737488355328) : ℚ)
      / (2 : ℚ) ^ ((2 : ℤ) - 52)⌋ = 7001865092304875 := by
    rw [Int.floor_eq_iff]; norm_num
  have hm : Dbl.roundHalfEven ((125 / (2828823515942093 / 140737488355328) : ℚ)
      / (2 : ℚ) ^ ((2 : ℤ) - 52)) = 7001865092304875 := by
    rw [Dbl.roundHalfEven_of_floor _ _ hf]; norm_num
  show Dbl.round (125 / (2828823515942093 / 140737488355328) : ℚ)
    = 7001865092304875 / 1125899906842624
  rw [Dbl.round_eq (2) 7001865092304875 (by norm_num) (by norm_num) (by norm_num) (by norm_num) hm]
  norm_num

/-- `5 / 20.1` is the double `0.24875621890547261`. -/
theorem quotient_pointer_y :
    Dbl.div 5 (2828823515942093 / 140737488355328)
      = 280074603692195 / 1125899906842624 := by
  have hf : ⌊(5 / (2828823515942093 / 140737488355328) : ℚ)
      / (2 : ℚ) ^ ((-3 : ℤ) - 52)⌋ = 8962387318150240 := by
    rw [Int.floor_eq_iff]; norm_num
  have hm : Dbl.roundHalfEven ((5 / (2828823515942093 / 140737488355328) : ℚ)
      / (2 : ℚ) ^ ((-3 : ℤ) - 52)) = 8962387318150240 := by
    rw [Dbl.roundHalfEven_of_floor _ _ hf]; norm_num
  show Dbl.round (5 / (2828823515942093 / 140737488355328) : ℚ)
    = 280074603692195 / 1125899906842624
  rw [Dbl.round_eq (-3) 8962387318150240 (by norm_num) (by norm_num) (by norm_num) (by norm_num) hm]
  norm_num

/-- The hypotheses below describe the state of the failing input as `drawGrid()`
reads it: squares of the double `20.1`, offset `{0, 0}`, hovered cell `(6, 0)`,
default colours.  At a loop position `(x, y)` whose coordinates are doubles the
body draws the border at `(x, y)` and, when the indices floor to `(6, 0)`, the
hover fill before it. -/
theorem drawSquare_strip (s : State) (hsz : s.squareSize = 2828823515942093 / 140737488355328)
    (hoff : s.gridOffset = Point.mk 0 0) (hhov : s.hoveredSquare = some (Point.mk 6 0))
    (hfill : s.hoverFillColor = "#222") (hborder : s.borderColor = "#999")
    (x y : ℚ) (ix iy : ℤ) (hx : Dbl.sub x 0 = x) (hy : Dbl.sub y 0 = y)
    (hix : ⌊Dbl.div x (2828823515942093 / 140737488355328)⌋ = ix)
    (hiy : ⌊Dbl.div y (2828823515942093 / 140737488355328)⌋ = iy) :
    drawSquare s 0 0 x y
      = (if ix = 6 ∧ iy = 0 then
          [CanvasOp.fillRect (FillStyle.color "#222") x y (2828823515942093 / 140737488355328)
            (2828823515942093 / 140737488355328)]
        else [])
        ++ [CanvasOp.strokeRect "#999" x y (2828823515942093 / 140737488355328)
            (2828823515942093 / 140737488355328)] := by
  unfold drawSquare
  simp only [hhov, hoff, hsz, JS.rem_zero_left, hx, hy, hix, hiy, hfill, hborder]

/-- A loop whose condition fails at once draws nothing, whatever fuel is left. -/
theorem drawColumn_stop (s : State) (height startX startY x y : ℚ) (fuel : ℕ)
    (h : ¬ y < Dbl.add height s.squareSize) :
    drawColumn s height startX startY x fuel y = some [] := by
  cases fuel <;> simp [drawColumn, h]

theorem drawColumns_stop (s : State) (width height startX startY x : ℚ) (fuel turns : ℕ)
    (h : ¬ x < Dbl.add width s.squareSize) :
    drawColumns s width height startX startY fuel turns x = some [] := by
  cases turns <;> simp [drawColumns, h]

/-- On the canvas of height 20 the inner loop makes two turns, at `y = 0` and
`y = 20.1`, and stops at `40.2`. -/
theorem drawColumn_strip (s : State) (hsz : s.squareSize = 2828823515942093 / 140737488355328)
    (x : ℚ) (fuel : ℕ) :
    drawColumn s 20 0 0 x (fuel + 2) 0
      = some (drawSquare s 0 0 x 0
          ++ (drawSquare s 0 0 x (2828823515942093 / 140737488355328) ++ [])) := by
  have h0 : (0 : ℚ) < 5643573283048653 / 140737488355328 := by norm_num
  have h1 : (2828823515942093 / 140737488355328 : ℚ) < 5643573283048653 / 140737488355328 := by norm_num
  rw [drawColumn, drawColumn, drawColumn_stop s 20 0 0 x _ fuel
    (by rw [hsz, step_0, step_1, bound_y]; norm_num)]
  simp only [hsz, bound_y, step_0, h0, h1, if_true]

/-- On the canvas of width 200 the outer loop makes eleven turns, from `x = 0`
to `x = 200.99999999999997`, and stops at `221.09999999999997`. -/
theorem drawColumns_strip (s : State) (hsz : s.squareSize = 2828823515942093 / 140737488355328)
    (fuel : ℕ) :
    drawColumns s 200 20 0 0 (fuel + 11) (fuel + 11) 0
      = some ((drawSquare s 0 0 0 0
          ++ (drawSquare s 0 0 0 (2828823515942093 / 140737488355328) ++ []))
        ++ ((drawSquare s 0 0 (2828823515942093 / 140737488355328) 0
          ++ (drawSquare s 0 0 (2828823515942093 / 140737488355328) (2828823515942093 / 140737488355328) ++ []))
        ++ ((drawSquare s 0 0 (2828823515942093 / 70368744177664) 0
          ++ (drawSquare s 0 0 (2828823515942093 / 70368744177664) (2828823515942093 / 140737488355328) ++ []))
        ++ ((drawSquare s 0 0 (8486470547826279 / 140737488355328) 0
          ++ (drawSquare s 0 0 (8486470547826279 / 140737488355328) (2828823515942093 / 140737488355328) ++ []))
        ++ ((drawSquare s 0 0 (2828823515942093 / 35184372088832) 0
          ++ (drawSquare s 0 0 (2828823515942093 / 35184372088832) (2828823515942093 / 140737488355328) ++ []))
        ++ ((drawSquare s 0 0 (201 / 2) 0
          ++ (drawSquare s 0 0 (201 / 2) (2828823515942093 / 140737488355328) ++ []))
        ++ ((drawSquare s 0 0 (4243235273913139 / 35184372088832) 0
          ++ (drawSquare s 0 0 (4243235273913139 / 35184372088832) (2828823515942093 / 140737488355328) ++ []))
        ++ ((drawSquare s 0 0 (2475220576449331 / 17592186044416) 0
          ++ (drawSquare s 0 0 (2475220576449331 / 17592186044416) (2828823515942093 / 140737488355328) ++ []))
        ++ ((drawSquare s 0 0 (5657647031884185 / 35184372088832) 0
          ++ (drawSquare s 0 0 (5657647031884185 / 35184372088832) (2828823515942093 / 140737488355328) ++ []))
        ++ ((drawSquare s 0 0 (1591213227717427 / 8796093022208) 0
          ++ (drawSquare s 0 0 (1591213227717427 / 8796093022208) (2828823515942093 / 140737488355328) ++ []))
        ++ ((drawSquare s 0 0 (7072058789855231 / 35184372088832) 0
          ++ (drawSquare s 0 0 (7072058789855231 / 35184372088832) (2828823515942093 / 140737488355328) ++ []))
        ++ []))))))))))) := by
  have hstop : ¬ ((3889632334420377 / 17592186044416 : ℚ) < Dbl.add 200 s.squareSize) := by
    rw [hsz, bound_x]; norm_num

  have h0 : (0 : ℚ) < 7744080296751923 / 35184372088832 := by norm_num

  have h1 : (2828823515942093 / 140737488355328 : ℚ) < 7744080296751923 / 35184372088832 := by norm_num

  have h2 : (2828823515942093 / 70368744177664 : ℚ) < 7744080296751923 / 35184372088832 := by norm_num

  have h3 : (8486470547826279 / 140737488355328 : ℚ) < 7744080296751923 / 35184372088832 := by norm_num

  have h4 : (2828823515942093 / 35184372088832 : ℚ) < 7744080296751923 / 35184372088832 := by norm_num

  have h5 : (201 / 2 : ℚ) < 7744080296751923 / 35184372088832 := by norm_num

  have h6 : (4243235273913139 / 35184372088832 : ℚ) < 7744080296751923 / 35184372088832 := by norm_num

  have h7 : (2475220576449331 / 17592186044416 : ℚ) < 7744080296751923 / 35184372088832 := by norm_num

  have h8 : (5657647031884185 / 35184372088832 : ℚ) < 7744080296751923 / 35184372088832 := by norm_num

  have h9 : (1591213227717427 / 8796093022208 : ℚ) < 7744080296751923 / 35184372088832 := by norm_num

  have h10 : (7072058789855231 / 35184372088832 : ℚ) < 7744080296751923 / 35184372088832 := by norm_num

  have hcol : ∀ x : ℚ, drawColumn s 20 0 0 x (fuel + 11) 0
      = some (drawSquare s 0 0 x 0 ++ (drawSquare s 0 0 x (2828823515942093 / 140737488355328) ++ [])) :=
    fun x => drawColumn_strip s hsz x (fuel + 9)
  simp only [drawColumns, hsz, bound_x, hcol, step_0, step_1, step_2, step_3, step_4, step_5, step_6, step_7, step_8, step_9, step_10,
    h0, h1, h2, h3, h4, h5, h6, h7, h8, h9, h10, if_true]
  rw [drawColumns_stop s 200 20 0 0 _ (fuel + 11) fuel (by exact hstop)]

/-- The cell index `drawGrid()` derives at the loop position `x = 0`. -/
theorem index_0 : ⌊Dbl.div 0 (2828823515942093 / 140737488355328)⌋ = 0 := by
  rw [Dbl.div_zero_left]; simp

/-- The cell index `drawGrid()` derives at the loop position of turn 1. -/
theorem index_1 : ⌊Dbl.div (2828823515942093 / 140737488355328) (2828823515942093 / 140737488355328)⌋ = 1 := by
  rw [quotient_1, Int.floor_eq_iff]; norm_num

/-- The cell index `drawGrid()` derives at the loop position of turn 2. -/
theorem index_2 : ⌊Dbl.div (2828823515942093 / 70368744177664) (2828823515942093 / 140737488355328)⌋ = 2 := by
  rw [quotient_2, Int.floor_eq_iff]; norm_num

/-- The cell index `drawGrid()` derives at the loop position of turn 3. -/
theorem index_3 : ⌊Dbl.div (8486470547826279 / 140737488355328) (2828823515942093 / 140737488355328)⌋ = 3 := by
  rw [quotient_3, Int.floor_eq_iff]; norm_num

/-- The cell index `drawGrid()` derives at the loop position of turn 4. -/
theorem index_4 : ⌊Dbl.div (2828823515942093 / 35184372088832) (2828823515942093 / 140737488355328)⌋ = 4 := by
  rw [quotient_4, Int.floor_eq_iff]; norm_num

/-- The cell index `drawGrid()` derives at the loop position of turn 5. -/
theorem index_5 : ⌊Dbl.div (201 / 2) (2828823515942093 / 140737488355328)⌋ = 5 := by
  rw [quotient_5, Int.floor_eq_iff]; norm_num

/-- The cell index `drawGrid()` derives at the loop position of turn 6. -/
theorem index_6 : ⌊Dbl.div (4243235273913139 / 35184372088832) (2828823515942093 / 140737488355328)⌋ = 5 := by
  rw [quotient_6, Int.floor_eq_iff]; norm_num

/-- The cell index `drawGrid()` derives at the loop position of turn 7. -/
theorem index_7 : ⌊Dbl.div (2475220576449331 / 17592186044416) (2828823515942093 / 140737488355328)⌋ = 6 := by
  rw [quotient_7, Int.floor_eq_iff]; norm_num

/-- The cell index `drawGrid()` derives at the loop position of turn 8. -/
theorem index_8 : ⌊Dbl.div (5657647031884185 / 35184372088832) (2828823515942093 / 140737488355328)⌋ = 7 := by
  rw [quotient_8, Int.floor_eq_iff]; norm_num

/-- The cell index `drawGrid()` derives at the loop position of turn 9. -/
theorem index_9 : ⌊Dbl.div (1591213227717427 / 8796093022208) (2828823515942093 / 140737488355328)⌋ = 8 := by
  rw [quotient_9, Int.floor_eq_iff]; norm_num

/-- The cell index `drawGrid()` derives at the loop position of turn 10. -/
theorem index_10 : ⌊Dbl.div (7072058789855231 / 35184372088832) (2828823515942093 / 140737488355328)⌋ = 9 := by
  rw [quotient_10, Int.floor_eq_iff]; norm_num

/-- What `drawGrid()` sends to the canvas at the failing input, for every fuel
of at least 11: the clear, the 22 squares with one hover fill, the gradient. -/
theorem drawGrid_strip (s : State) (hsz : s.squareSize = 2828823515942093 / 140737488355328)
    (hoff : s.gridOffset = Point.mk 0 0) (hhov : s.hoveredSquare = some (Point.mk 6 0))
    (hfill : s.hoverFillColor = "#222") (hborder : s.borderColor = "#999")
    (hc : s.canvas = some (Canvas.mk 200 20 true)) (hctx : s.context = true) (fuel : ℕ) :
    drawGrid (fuel + 11) s
      = some (CanvasOp.clearRect 0 0 200 20 ::
     [CanvasOp.strokeRect "#999" 0 0
        (2828823515942093 / 140737488355328) (2828823515942093 / 140737488355328),
      CanvasOp.strokeRect "#999" 0 (2828823515942093 / 140737488355328)
        (2828823515942093 / 140737488355328) (2828823515942093 / 140737488355328),
      CanvasOp.strokeRect "#999" (2828823515942093 / 140737488355328) 0
        (2828823515942093 / 140737488355328) (2828823515942093 / 140737488355328),
      CanvasOp.strokeRect "#999" (2828823515942093 / 140737488355328) (2828823515942093 / 140737488355328)
        (2828823515942093 / 140737488355328) (2828823515942093 / 140737488355328),
      CanvasOp.strokeRect "#999" (2828823515942093 / 70368744177664) 0
        (2828823515942093 / 140737488355328) (2828823515942093 / 140737488355328),
      CanvasOp.strokeRect "#999" (2828823515942093 / 70368744177664) (2828823515942093 / 140737488355328)
        (2828823515942093 / 140737488355328) (2828823515942093 / 140737488355328),
      CanvasOp.strokeRect "#999" (8486470547826279 / 140737488355328) 0
        (2828823515942093 / 140737488355328) (2828823515942093 / 140737488355328),
      CanvasOp.strokeRect "#999" (8486470547826279 / 140737488355328) (2828823515942093 / 140737488355328)
        (2828823515942093 / 140737488355328) (2828823515942093 / 140737488355328),
      CanvasOp.strokeRect "#999" (2828823515942093 / 35184372088832) 0
        (2828823515942093 / 140737488355328) (2828823515942093 / 140737488355328),
      CanvasOp.strokeRect "#999" (2828823515942093 / 35184372088832) (2828823515942093 / 140737488355328)
        (2828823515942093 / 140737488355328) (2828823515942093 / 140737488355328),
      CanvasOp.strokeRect "#999" (201 / 2) 0
        (2828823515942093 / 140737488355328) (2828823515942093 / 140737488355328),
      CanvasOp.strokeRect "#999" (201 / 2) (2828823515942093 / 140737488355328)
        (2828823515942093 / 140737488355328) (2828823515942093 / 140737488355328),
      CanvasOp.strokeRect "#999" (4243235273913139 / 35184372088832) 0
        (2828823515942093 / 140737488355328) (2828823515942093 / 140737488355328),
      CanvasOp.strokeRect "#999" (4243235273913139 / 35184372088832) (2828823515942093 / 140737488355328)
        (2828823515942093 / 140737488355328) (2828823515942093 / 140737488355328),
      CanvasOp.fillRect (FillStyle.color "#222") (2475220576449331 / 17592186044416) 0
        (2828823515942093 / 140737488355328) (2828823515942093 / 140737488355328),
      CanvasOp.strokeRect "#999" (2475220576449331 / 17592186044416) 0
        (2828823515942093 / 140737488355328) (2828823515942093 / 140737488355328),
      CanvasOp.strokeRect "#999" (2475220576449331 / 17592186044416) (2828823515942093 / 140737488355328)
        (2828823515942093 / 140737488355328) (2828823515942093 / 140737488355328),
      CanvasOp.strokeRect "#999" (5657647031884185 / 35184372088832) 0
        (2828823515942093 / 140737488355328) (2828823515942093 / 140737488355328),
      CanvasOp.strokeRect "#999" (5657647031884185 / 35184372088832) (2828823515942093 / 140737488355328)
        (2828823515942093 / 140737488355328) (2828823515942093 / 140737488355328),
      CanvasOp.strokeRect "#999" (1591213227717427 / 8796093022208) 0
        (2828823515942093 / 140737488355328) (2828823515942093 / 140737488355328),
      CanvasOp.strokeRect "#999" (1591213227717427 / 8796093022208) (2828823515942093 / 140737488355328)
        (2828823515942093 / 140737488355328) (2828823515942093 / 140737488355328),
      CanvasOp.strokeRect "#999" (7072058789855231 / 35184372088832) 0
        (2828823515942093 / 140737488355328) (2828823515942093 / 140737488355328),
      CanvasOp.strokeRect "#999" (7072058789855231 / 35184372088832) (2828823515942093 / 140737488355328)
        (2828823515942093 / 140737488355328) (2828823515942093 / 140737488355328)]
        ++ [CanvasOp.fillRect FillStyle.radialGradient 0 0 200 20]) := by
  have hstart : Dbl.mul (⌊Dbl.div 0 s.squareSize⌋ : ℚ) s.squareSize = 0 := by
    rw [Dbl.div_zero_left]; simp [Dbl.mul_zero_left]
  unfold drawGrid
  simp only [hctx, hc, hoff, hstart, Bool.not_true, Bool.false_eq_true, if_false]
  rw [drawColumns_strip s hsz fuel]

  rw [drawSquare_strip s hsz hoff hhov hfill hborder 0 0 0 0
    Dbl.sub_zero_zero Dbl.sub_zero_zero index_0 index_0]

  rw [drawSquare_strip s hsz hoff hhov hfill hborder 0 (2828823515942093 / 140737488355328) 0 1
    Dbl.sub_zero_zero minus_start_1 index_0 index_1]

  rw [drawSquare_strip s hsz hoff hhov hfill hborder (2828823515942093 / 140737488355328) 0 1 0
    minus_start_1 Dbl.sub_zero_zero index_1 index_0]

  rw [drawSquare_strip s hsz hoff hhov hfill hborder (2828823515942093 / 140737488355328) (2828823515942093 / 140737488355328) 1 1
    minus_start_1 minus_start_1 index_1 index_1]

  rw [drawSquare_strip s hsz hoff hhov hfill hborder (2828823515942093 / 70368744177664) 0 2 0
    minus_start_2 Dbl.sub_zero_zero index_2 index_0]

  rw [drawSquare_strip s hsz hoff hhov hfill hborder (2828823515942093 / 70368744177664) (2828823515942093 / 140737488355328) 2 1
    minus_start_2 minus_start_1 index_2 index_1]

  rw [drawSquare_strip s hsz hoff hhov hfill hborder (8486470547826279 / 140737488355328) 0 3 0
    minus_start_3 Dbl.sub_zero_zero index_3 index_0]

  rw [drawSquare_strip s hsz hoff hhov hfill hborder (8486470547826279 / 140737488355328) (2828823515942093 / 140737488355328) 3 1
    minus_start_3 minus_start_1 index_3 index_1]

  rw [drawSquare_strip s hsz hoff hhov hfill hborder (2828823515942093 / 35184372088832) 0 4 0
    minus_start_4 Dbl.sub_zero_zero index_4 index_0]

  rw [drawSquare_strip s hsz hoff hhov hfill hborder (2828823515942093 / 35184372088832) (2828823515942093 / 140737488355328) 4 1
    minus_start_4 minus_start_1 index_4 index_1]

  rw [drawSquare_strip s hsz hoff hhov hfill hborder (201 / 2) 0 5 0
    minus_start_5 Dbl.sub_zero_zero index_5 index_0]

  rw [drawSquare_strip s hsz hoff hhov hfill hborder (201 / 2) (2828823515942093 / 140737488355328) 5 1
    minus_start_5 minus_start_1 index_5 index_1]

  rw [drawSquare_strip s hsz hoff hhov hfill hborder (4243235273913139 / 35184372088832) 0 5 0
    minus_start_6 Dbl.sub_zero_zero index_6 index_0]

  rw [drawSquare_strip s hsz hoff hhov hfill hborder (4243235273913139 / 35184372088832) (2828823515942093 / 140737488355328) 5 1
    minus_start_6 minus_start_1 index_6 index_1]

  rw [drawSquare_strip s hsz hoff hhov hfill hborder (2475220576449331 / 17592186044416) 0 6 0
    minus_start_7 Dbl.sub_zero_zero index_7 index_0]

  rw [drawSquare_strip s hsz hoff hhov hfill hborder (2475220576449331 / 17592186044416) (2828823515942093 / 140737488355328) 6 1
    minus_start_7 minus_start_1 index_7 index_1]

  rw [drawSquare_strip s hsz hoff hhov hfill hborder (5657647031884185 / 35184372088832) 0 7 0
    minus_start_8 Dbl.sub_zero_zero index_8 index_0]

  rw [drawSquare_strip s hsz hoff hhov hfill hborder (5657647031884185 / 35184372088832) (2828823515942093 / 140737488355328) 7 1
    minus_start_8 minus_start_1 index_8 index_1]

  rw [drawSquare_strip s hsz hoff hhov hfill hborder (1591213227717427 / 8796093022208) 0 8 0
    minus_start_9 Dbl.sub_zero_zero index_9 index_0]

  rw [drawSquare_strip s hsz hoff hhov hfill hborder (1591213227717427 / 8796093022208) (2828823515942093 / 140737488355328) 8 1
    minus_start_9 minus_start_1 index_9 index_1]

  rw [drawSquare_strip s hsz hoff hhov hfill hborder (7072058789855231 / 35184372088832) 0 9 0
    minus_start_10 Dbl.sub_zero_zero index_10 index_0]

  rw [drawSquare_strip s hsz hoff hhov hfill hborder (7072058789855231 / 35184372088832) (2828823515942093 / 140737488355328) 9 1
    minus_start_10 minus_start_1 index_10 index_1]

  simp

/-- The fields of the effect of the failing input. -/
theorem fractionalSquares_fields :
    fractionalSquares.squareSize = 2828823515942093 / 140737488355328
      ∧ fractionalSquares.gridOffset = Point.mk 0 0
      ∧ fractionalSquares.canvas = some (Canvas.mk 200 20 true)
      ∧ fractionalSquares.context = true
      ∧ fractionalSquares.hoverFillColor = "#222"
      ∧ fractionalSquares.borderColor = "#999" := by
  have hsz : JS.orNum (some (Dbl.round 20.1)) 40 = 2828823515942093 / 140737488355328 := by
    rw [literal_size]; norm_num [JS.orNum]
  refine ⟨?_, ?_, ?_, ?_, ?_, ?_⟩
  · simp only [fractionalSquares, init, animate, updateAnimation, resizeCanvas, new,
      requestAnimationFrame, hsz]
  · simp [fractionalSquares, init, animate, updateAnimation, resizeCanvas, new,
      requestAnimationFrame, advanceOffset, JS.orStr]
  · simp [fractionalSquares, init, animate, updateAnimation, resizeCanvas, new,
      requestAnimationFrame, stripEnv, blankEnv]
  · simp [fractionalSquares, init, animate, updateAnimation, resizeCanvas, new,
      requestAnimationFrame]
  · simp [fractionalSquares, init, animate, updateAnimation, resizeCanvas, new,
      requestAnimationFrame, JS.orStr]
  · simp [fractionalSquares, init, animate, updateAnimation, resizeCanvas, new,
      requestAnimationFrame, JS.orStr]

/-- C14, evaluated at `new SquaresBackground({ direction: 'none', squareSize: 20.1 })`
on a canvas of 200 by 20 with `gridOffset = {0, 0}` and the pointer at the
canvas-local position `(125, 5)`.  `handleMouseMove` sets `hoveredSquare` to
`(6, 0)` (the double quotient `125 / 20.1` floors to 6 as well).  `drawGrid()`
reaches `x = 120.6` and `x = 140.7` by repeated addition; in doubles
`120.6 / 20.1` is `5.999999999999999` and `140.7 / 20.1` is `6.999999999999999`,
so the position it takes for cell 6 is `x = 140.7`: the one square it fills
with the hover colour is `[140.7, 160.8) x [0, 20.1)`, and `140.7 ≤ 125` is
false.  (`2475220576449331 / 17592186044416` is the double `140.7`.) -/
theorem hover_fill_misses_pointer :
    (0 < fractionalSquares.squareSize ∧ fractionalSquares.gridOffset = Point.mk 0 0)
      ∧ (handleMouseMove fractionalSquares stripEnv 125 5).hoveredSquare = some (Point.mk 6 0)
      ∧ ⌊Dbl.div 125 fractionalSquares.squareSize⌋ = 6
      ∧ ⌊Dbl.div 5 fractionalSquares.squareSize⌋ = 0
      ∧ ∃ ops : List CanvasOp,
          (∀ fuel : ℕ,
            drawGrid (fuel + 11) (handleMouseMove fractionalSquares stripEnv 125 5) = some ops)
          ∧ CanvasOp.fillRect (FillStyle.color "#222") (2475220576449331 / 17592186044416) 0
              fractionalSquares.squareSize fractionalSquares.squareSize ∈ ops
          ∧ (∀ X Y w h : ℚ, CanvasOp.fillRect (FillStyle.color "#222") X Y w h ∈ ops →
              X = 2475220576449331 / 17592186044416 ∧ Y = 0)
          ∧ ¬ ((2475220576449331 / 17592186044416 : ℚ) ≤ 125) := by
  obtain ⟨hsz, hoff, hc, hctx, hfill, hborder⟩ := fractionalSquares_fields
  have hfx : ⌊((125 : ℚ) - 0 + 0 - ((⌊(0 : ℚ) / (2828823515942093 / 140737488355328)⌋ : ℤ) : ℚ)
      * (2828823515942093 / 140737488355328)) / (2828823515942093 / 140737488355328)⌋ = 6 := by
    rw [Int.floor_eq_iff]; norm_num
  have hfy : ⌊((5 : ℚ) - 0 + 0 - ((⌊(0 : ℚ) / (2828823515942093 / 140737488355328)⌋ : ℤ) : ℚ)
      * (2828823515942093 / 140737488355328)) / (2828823515942093 / 140737488355328)⌋ = 0 := by
    rw [Int.floor_eq_iff]; norm_num
  have hmove := handleMouseMove_eq fractionalSquares stripEnv 125 5 _ hc
  simp only [hsz, hoff, stripEnv, blankEnv, hfx, hfy] at hmove
  have hqx : ⌊Dbl.div 125 fractionalSquares.squareSize⌋ = 6 := by
    rw [hsz, quotient_pointer_x, Int.floor_eq_iff]; norm_num
  have hqy : ⌊Dbl.div 5 fractionalSquares.squareSize⌋ = 0 := by
    rw [hsz, quotient_pointer_y, Int.floor_eq_iff]; norm_num
  refine ⟨⟨by rw [hsz]; norm_num, hoff⟩, by simp only [stripEnv, blankEnv]; rw [hmove], hqx, hqy, ?_⟩
  have hdraw := drawGrid_strip (handleMouseMove fractionalSquares stripEnv 125 5)
    (by simp only [stripEnv, blankEnv]; rw [hmove])
    (by simp only [stripEnv, blankEnv]; rw [hmove])
    (by simp only [stripEnv, blankEnv]; rw [hmove])
    (by simp only [stripEnv, blankEnv]; rw [hmove]; exact hfill)
    (by simp only [stripEnv, blankEnv]; rw [hmove]; exact hborder)
    (by simp only [stripEnv, blankEnv]; rw [hmove]; exact hc)
    (by simp only [stripEnv, blankEnv]; rw [hmove]; exact hctx)
  refine ⟨_, hdraw, ?_, ?_, by norm_num⟩
  · rw [hsz]; simp
  · intro X Y w h hmem
    simp at hmem
    exact ⟨hmem.1, hmem.2.1⟩

end SquaresBackground

end CodetantraCheat
